import Mathlib

/-!
Verification of the emergency-first-aid orchestrator pipeline
(backend/realtime_vlm): the hazard parser, the severity and dispatch
policy, the urgency-label resolution, the video frame extractor, the
SSE session registry, and the per-session pipeline task.

Numbers that the Python code manipulates as floats are modelled as
rationals; Python's round(x, 2) (round half to even at two decimals)
and int(x) (truncation toward zero) are modelled explicitly.
-/

unseal Rat.mul Rat.add Rat.inv Rat.sub Rat.ofScientific

namespace EmergencyApp

/-- Python's round-half-to-even on a rational, as used by round(x). -/
def pyRoundHalfEven (q : ℚ) : ℤ :=
  let f : ℤ := ⌊q⌋
  let r : ℚ := q - f
  if r < 1/2 then f
  else if 1/2 < r then f + 1
  else if f % 2 = 0 then f else f + 1

/-- Python's round(x, 2): round half to even at two decimal places. -/
def pyRound2 (q : ℚ) : ℚ :=
  (pyRoundHalfEven (q * 100) : ℚ) / 100

/-- Python's int(x) on a float: truncation toward zero. -/
def pyTrunc (q : ℚ) : ℤ :=
  if 0 ≤ q then ⌊q⌋ else ⌈q⌉

/-! ## Urgency levels (orchestrator data model)

The orchestrator (backend/realtime_vlm/orchestrator/main.py) imports
UrgencyLevel from its local models module.  The copy of that module in
the vision service (vision_service/models.py) defines the members
low, medium, high, critical; the orchestrator additionally references
a member named NORMAL.  The models module actually resolved by the
orchestrator is not part of the provided sources. -/

/-- Modelled from the spec: the orchestrator's UrgencyLevel enumeration;
the spec's data model lists urgency_level values
low, normal, medium, high, critical, and the orchestrator's own copy of
the models module (absent from the sources) must provide the NORMAL
member it references.  The vision-service parser never produces
normal. -/
inductive UrgencyLevel
  | low
  | medium
  | high
  | critical
  | normal
deriving DecidableEq, Repr

/-- The .value string of each UrgencyLevel member. -/
def UrgencyLevel.val : UrgencyLevel → String
  | .low => "low"
  | .medium => "medium"
  | .high => "high"
  | .critical => "critical"
  | .normal => "normal"

/-- EmergencyMetrics record (vision_service/models.py). -/
structure EmergencyMetrics where
  timestamp : String
  frame_number : ℤ
  scene_description : String
  urgency_level : UrgencyLevel
  urgency_score : ℚ
  detected_hazards : List String
  people_count : Option ℤ := none
  visible_injuries : Bool := false
  environmental_conditions : String := ""
  accessibility_issues : List String := []
  recommended_action : String := ""
  confidence : ℚ := 0
  raw_response : String := ""
deriving DecidableEq, Repr

/-! ## Severity and dispatch policy (orchestrator/main.py) -/

/-- Hazard weight table, with default 0.8 for unknown hazards. -/
def hazard_weight (hazard : String) : ℚ :=
  if hazard = "fire" then 3
  else if hazard = "medical_emergency" then 3
  else if hazard = "violence" then 5/2
  else if hazard = "smoke" then 2
  else if hazard = "structural_damage" then 2
  else if hazard = "gas" then 2
  else if hazard = "water" then 6/5
  else if hazard = "blocked_exit" then 1
  else 4/5

/-- Severity index: min(10, round(0.4*score + hazard weights +
2.5*injuries + 0.3*min(people,5), 2)). -/
def calculate_emergency_severity (m : EmergencyMetrics) : ℚ :=
  let hazard_score : ℚ := (m.detected_hazards.map hazard_weight).sum
  let injury_bonus : ℚ := if m.visible_injuries then 5/2 else 0
  let people_bonus : ℚ := (min (m.people_count.getD 0) 5 : ℤ) * (3/10)
  let base : ℚ := m.urgency_score * (2/5)
  min 10 (pyRound2 (base + hazard_score + injury_bonus + people_bonus))

/-- Agent dispatch policy: a critical hazard (fire or medical_emergency)
or visible injuries, together with urgency_score at least 6.0 or
severity index at least 6.5. -/
def requires_agent_dispatch (m : EmergencyMetrics) (severity_index : ℚ) : Bool :=
  (m.detected_hazards.any (fun h => h == "fire" || h == "medical_emergency")
      || m.visible_injuries)
    && (m.urgency_score ≥ 6 || severity_index ≥ 13/2)

/-- URGENCY_PRIORITY lookup: some priority for the four public labels,
none otherwise. -/
def urgencyPriority (label : String) : Option ℕ :=
  if label = "low" then some 0
  else if label = "normal" then some 1
  else if label = "medium" then some 2
  else if label = "high" then some 3
  else none

/-- URGENCY_PRIORITY.get(label, 0). -/
def urgencyPriorityD (label : String) : ℕ :=
  (urgencyPriority label).getD 0

/-- Reclassification of an urgency score with thresholds 7.0, 5.0, 3.0. -/
def classify_urgency (score : Option ℚ) : UrgencyLevel :=
  match score with
  | none => .normal
  | some s =>
    if s ≥ 7 then .high
    else if s ≥ 5 then .medium
    else if s ≥ 3 then .normal
    else .low

/-- Shared tail of the urgency-label resolution, applied to the
already-extracted level string. -/
def resolve_urgency_label_core (level_value : String) (score : Option ℚ) : String :=
  if level_value = UrgencyLevel.critical.val then UrgencyLevel.high.val
  else if (urgencyPriority level_value).isSome then level_value
  else (classify_urgency score).val

/-- ASCII lowering of a character (enough for this repository's ASCII
captions and labels). -/
def asciiLowerChar (c : Char) : Char :=
  if 'A' ≤ c ∧ c ≤ 'Z' then Char.ofNat (c.toNat + 32) else c

/-- ASCII lowering of a string. -/
def asciiLower (s : String) : String :=
  ⟨s.data.map asciiLowerChar⟩

/-- Urgency-label resolution on a raw (string) level, mirroring the
str(raw_level).lower() branch of the source. -/
def resolve_urgency_label_raw (raw : String) (score : Option ℚ) : String :=
  resolve_urgency_label_core (asciiLower raw) score

/-- Urgency-label resolution on a typed metric (isinstance branch of the
source: level_value = raw_level.value). -/
def resolve_urgency_label (m : EmergencyMetrics) : String :=
  resolve_urgency_label_core m.urgency_level.val (some m.urgency_score)

/-! ## String machinery for the hazard parser
(vision_service/ai_client.py, parse_emergency_response)

Captions are ASCII; Python substring tests and the handful of regular
expressions used by the parser are embedded as executable functions on
character lists. -/

/-- Is the first list a leading segment of the second? -/
def listIsPre : List Char → List Char → Bool
  | [], _ => true
  | _ :: _, [] => false
  | a :: as, b :: bs => a == b && listIsPre as bs

/-- Python's substring test: needle occurs somewhere in hay. -/
def containsSub (needle : List Char) : List Char → Bool
  | [] => listIsPre needle []
  | c :: rest => listIsPre needle (c :: rest) || containsSub needle rest

/-- Substring test on strings. -/
def sub (needle : String) (low : List Char) : Bool :=
  containsSub needle.data low

/-- Python regex whitespace characters (ASCII part). -/
def wsChars : List Char := [' ', '\t', '\n', '\r', '\x0B', '\x0C']

/-- Character set of the regex [: whitespace]. -/
def colonWs : List Char := ':' :: wsChars

/-- Character set of the regex [yed]. -/
def yedChars : List Char := ['y', 'e', 'd']

/-- Tokens of the tiny regex fragment used by the parser: literals,
one-or-more / zero-or-more over a character set, and alternation of
literals. -/
inductive RTok
  | lit (l : List Char)
  | many1 (set : List Char)
  | many0 (set : List Char)
  | oneOf (ls : List (List Char))
deriving Repr

/-- Backtracking matcher for a token sequence anchored at the start of
the input, with explicit fuel so the kernel can evaluate it; every
recursive call strictly decreases 2 * input length + token count, so
fuel larger than that measure never runs out. -/
def matchToksF : ℕ → List RTok → List Char → Bool
  | 0, _, _ => false
  | _ + 1, [], _ => true
  | fuel + 1, .lit l :: ts, s =>
    listIsPre l s && matchToksF fuel ts (s.drop l.length)
  | fuel + 1, .oneOf ls :: ts, s =>
    ls.any (fun l => listIsPre l s && matchToksF fuel ts (s.drop l.length))
  | fuel + 1, .many1 set :: ts, s =>
    match s with
    | [] => false
    | c :: s' => set.contains c && matchToksF fuel (.many0 set :: ts) s'
  | fuel + 1, .many0 set :: ts, s =>
    matchToksF fuel ts s ||
      (match s with
       | [] => false
       | c :: s' => set.contains c && matchToksF fuel (.many0 set :: ts) s')

/-- Matcher at the start of the input, with sufficient fuel. -/
def matchToks (ts : List RTok) (s : List Char) : Bool :=
  matchToksF (2 * s.length + ts.length + 1) ts s

/-- re.search: the token sequence matches at some position. -/
def searchToks (ts : List RTok) : List Char → Bool
  | [] => matchToks ts []
  | c :: rest => matchToks ts (c :: rest) || searchToks ts rest

/-- Literal regex token from a string. -/
def litT (s : String) : RTok := .lit s.data

/-! ## Hazard detection (parse_emergency_response, step 1) -/

/-- Negation regex for fire. -/
def denyFire (low : List Char) : Bool :=
  searchToks [litT "no", .many1 wsChars, litT "fire"] low ||
  searchToks [litT "fire", .many0 colonWs, litT "no"] low ||
  searchToks [litT "without", .many1 wsChars, litT "fire"] low

/-- Negation regex for smoke. -/
def denySmoke (low : List Char) : Bool :=
  searchToks [litT "no", .many1 wsChars, litT "smoke"] low ||
  searchToks [litT "smoke", .many0 colonWs, litT "no"] low ||
  searchToks [litT "without", .many1 wsChars, litT "smoke"] low

/-- Negation regex for water / flooding. -/
def denyWater (low : List Char) : Bool :=
  searchToks [litT "no", .many1 wsChars, .oneOf ["flood".data, "water".data]] low ||
  searchToks [litT "flood", .many0 colonWs, litT "no"] low

/-- Negation regex for structural damage. -/
def denyDamage (low : List Char) : Bool :=
  searchToks [litT "no", .many1 wsChars, litT "damage"] low ||
  searchToks [litT "damage", .many0 colonWs, litT "no"] low ||
  sub "intact" low

/-- Negation regex for gas. -/
def denyGas (low : List Char) : Bool :=
  searchToks [litT "no", .many1 wsChars, litT "gas"] low ||
  searchToks [litT "gas", .many0 colonWs, litT "no"] low

/-- Negation regex for injuries / medical emergency. -/
def denyInjury (low : List Char) : Bool :=
  searchToks [litT "no", .many1 wsChars, litT "injur"] low ||
  searchToks [litT "injur", .many0 yedChars, .many0 colonWs, litT "no"] low ||
  sub "uninjured" low

/-- Negation regex for violence. -/
def denyViolence (low : List Char) : Bool :=
  searchToks [litT "no", .many1 wsChars, .oneOf ["weapon".data, "violence".data]] low ||
  searchToks [litT "weapon", .many0 colonWs, litT "no"] low

/-- Negation regex for blocked exits. -/
def denyBlock (low : List Char) : Bool :=
  searchToks [litT "no", .many1 wsChars, litT "block"] low ||
  searchToks [litT "block", .many0 colonWs, litT "no"] low ||
  sub "clear" low

/-- Fire cues. -/
def cueFire (low : List Char) : Bool :=
  sub "fire" low || sub "flame" low || sub "burning" low || sub "blaze" low

/-- Smoke cues. -/
def cueSmoke (low : List Char) : Bool :=
  sub "smoke" low || sub "smoking" low || sub "smoky" low

/-- Water cues. -/
def cueWater (low : List Char) : Bool :=
  sub "flood" low || sub "flooding" low || sub "submerged" low ||
    sub "inundated" low || sub "water damage" low

/-- Structural damage cues. -/
def cueDamage (low : List Char) : Bool :=
  sub "collapsed" low || sub "debris" low || sub "rubble" low ||
    sub "damaged building" low || sub "broken structure" low ||
    sub "structural damage" low || sub "crumbled" low || sub "destroyed" low

/-- Gas cues. -/
def cueGas (low : List Char) : Bool :=
  sub "gas leak" low || sub "gas" low || sub "chemical" low ||
    sub "fumes" low || sub "toxic" low

/-- Danger-context cues required for the gas hazard. -/
def cueGasContext (low : List Char) : Bool :=
  sub "leak" low || sub "fumes" low || sub "toxic" low ||
    sub "chemical" low || sub "danger" low

/-- Medical emergency cues. -/
def cueMedical (low : List Char) : Bool :=
  sub "injured" low || sub "injury" low || sub "hurt" low || sub "victim" low ||
    sub "casualty" low || sub "wounded" low || sub "medical emergency" low ||
    sub "blood" low || sub "bloody" low || sub "bleeding" low || sub "bloodied" low

/-- Violence cues. -/
def cueViolence (low : List Char) : Bool :=
  sub "weapon" low || sub "gun" low || sub "knife" low || sub "assault" low ||
    sub "attack" low || sub "violence" low || sub "fighting" low || sub "combat" low

/-- Blocked exit cues. -/
def cueBlock (low : List Char) : Bool :=
  sub "blocked exit" low || sub "obstructed" low || sub "trapped" low ||
    sub "blocked path" low

/-- Hazard list built in source order from the lowercased caption. -/
def detectHazards (low : List Char) : List String :=
  (if cueFire low && !denyFire low then ["fire"] else []) ++
  (if cueSmoke low && !denySmoke low then ["smoke"] else []) ++
  (if cueWater low && !denyWater low then ["water"] else []) ++
  (if cueDamage low && !denyDamage low then ["structural_damage"] else []) ++
  (if cueGas low && !denyGas low && cueGasContext low then ["gas"] else []) ++
  (if cueMedical low && !denyInjury low then ["medical_emergency"] else []) ++
  (if cueViolence low && !denyViolence low then ["violence"] else []) ++
  (if cueBlock low && !denyBlock low then ["blocked_exit"] else [])

/-! ## Urgency assignment (parse_emergency_response, step 2) -/

/-- Urgency level and score from detected hazards, falling back to
textual danger keywords. -/
def urgencyFromHazards (hazards : List String) (low : List Char) :
    UrgencyLevel × ℚ :=
  if hazards.any (fun h => h == "fire" || h == "violence" || h == "medical_emergency")
    then (.critical, 19/2)
  else if hazards.any (fun h => h == "smoke" || h == "structural_damage" || h == "gas")
    then (.high, 15/2)
  else if hazards.any (fun h => h == "water" || h == "blocked_exit")
    then (.medium, 9/2)
  else if sub "critical" low || sub "extreme danger" low ||
      sub "life threatening" low || sub "emergency" low
    then (.critical, 19/2)
  else if sub "high danger" low || sub "high risk" low ||
      sub "dangerous" low || sub "urgent" low
    then (.high, 15/2)
  else if sub "medium" low || sub "moderate" low ||
      sub "caution" low || sub "some concern" low
    then (.medium, 9/2)
  else (.low, 3/2)

/-! ## People count (parse_emergency_response, step 3) -/

/-- Numeric value of a digit run. -/
def digitsToInt (ds : List Char) : ℤ :=
  ds.foldl (fun n c => n * 10 + ((c.toNat : ℤ) - 48)) 0

/-- First people pattern anchored at a position: digits, whitespace,
then people / person / individual. -/
def peopleP1At (s : List Char) : Option ℤ :=
  let ds := s.takeWhile Char.isDigit
  let r1 := s.dropWhile Char.isDigit
  if ds.isEmpty then none
  else
    let ws := r1.takeWhile (fun c => wsChars.contains c)
    let r2 := r1.dropWhile (fun c => wsChars.contains c)
    if ws.isEmpty then none
    else if listIsPre "people".data r2 || listIsPre "person".data r2 ||
        listIsPre "individual".data r2
      then some (digitsToInt ds) else none

/-- Second people pattern anchored at a position: people / person, a
colon or whitespace run, then digits. -/
def peopleP2At (s : List Char) : Option ℤ :=
  if listIsPre "people".data s || listIsPre "person".data s then
    let r1 := s.drop 6
    let sep := r1.takeWhile (fun c => colonWs.contains c)
    let r2 := r1.dropWhile (fun c => colonWs.contains c)
    if sep.isEmpty then none
    else
      let ds := r2.takeWhile Char.isDigit
      if ds.isEmpty then none else some (digitsToInt ds)
  else none

/-- Third people pattern anchored at a position: see, whitespace,
digits. -/
def peopleP3At (s : List Char) : Option ℤ :=
  if listIsPre "see".data s then
    let r1 := s.drop 3
    let ws := r1.takeWhile (fun c => wsChars.contains c)
    let r2 := r1.dropWhile (fun c => wsChars.contains c)
    if ws.isEmpty then none
    else
      let ds := r2.takeWhile Char.isDigit
      if ds.isEmpty then none else some (digitsToInt ds)
  else none

/-- Fourth people pattern anchored at a position: count, a colon or
whitespace run, digits. -/
def peopleP4At (s : List Char) : Option ℤ :=
  if listIsPre "count".data s then
    let r1 := s.drop 5
    let sep := r1.takeWhile (fun c => colonWs.contains c)
    let r2 := r1.dropWhile (fun c => colonWs.contains c)
    if sep.isEmpty then none
    else
      let ds := r2.takeWhile Char.isDigit
      if ds.isEmpty then none else some (digitsToInt ds)
  else none

/-- Leftmost successful application of an anchored scanner. -/
def searchOpt (f : List Char → Option ℤ) : List Char → Option ℤ
  | [] => f []
  | c :: rest =>
    match f (c :: rest) with
    | some v => some v
    | none => searchOpt f rest

/-- People count: the four regex patterns in order, then the explicit
no-people phrases. -/
def parsePeopleCount (low : List Char) : Option ℤ :=
  match searchOpt peopleP1At low with
  | some v => some v
  | none =>
  match searchOpt peopleP2At low with
  | some v => some v
  | none =>
  match searchOpt peopleP3At low with
  | some v => some v
  | none =>
  match searchOpt peopleP4At low with
  | some v => some v
  | none =>
    if sub "no people" low || sub "nobody" low || sub "none visible" low ||
        sub "0 people" low
      then some 0 else none

/-! ## Remaining parser fields (steps 4 - 9) -/

/-- Injuries flag: regex injur[yed]*[: whitespace]*(yes or visible or
present or detected). -/
def visibleInjuriesOf (low : List Char) : Bool :=
  searchToks
    [litT "injur", .many0 yedChars, .many0 colonWs,
     .oneOf ["yes".data, "visible".data, "present".data, "detected".data]] low

/-- Environmental conditions string. -/
def environmentalOf (low : List Char) (hazards : List String) : String :=
  if sub "dark" low || sub "low light" low then "Low lighting conditions"
  else if sub "bright" low || sub "good light" low then "Good lighting"
  else if hazards.contains "smoke" then "Poor visibility due to smoke"
  else if sub "rain" low || sub "wet" low then "Wet conditions"
  else "Normal indoor/outdoor conditions"

/-- Accessibility issues list. -/
def accessibilityOf (low : List Char) (hazards : List String) : List String :=
  (if hazards.contains "blocked_exit" then ["blocked_exit"] else []) ++
  (if sub "debris" low || sub "rubble" low then ["debris"] else [])

/-- Python str.strip(): drop whitespace at both ends. -/
def pyStrip (s : String) : String :=
  ⟨((s.data.dropWhile (fun c => wsChars.contains c)).reverse.dropWhile
      (fun c => wsChars.contains c)).reverse⟩

/-- Keywords selecting action sentences. -/
def actionKeywords : List String :=
  ["should", "must", "need to", "evacuate", "call", "contact",
   "move", "leave", "stay", "avoid", "immediately"]

/-- Recommended action: first two keyword sentences, else a default per
urgency level. -/
def recommendedActionOf (response : String) (level : UrgencyLevel) : String :=
  let sentences := response.splitOn "."
  let action_sentences :=
    (sentences.filter
        (fun sent => actionKeywords.any
          (fun k => containsSub k.data (asciiLower sent).data))).map pyStrip
  if !action_sentences.isEmpty then
    String.intercalate ". " (action_sentences.take 2)
  else
    match level with
    | .critical =>
      "IMMEDIATE ACTION REQUIRED. Evacuate area and call emergency services NOW."
    | .high =>
      "Call emergency services immediately. Ensure safety of all individuals."
    | .medium =>
      "Stay alert. Prepare to evacuate if situation worsens. Contact authorities if needed."
    | _ => "Monitor situation. Call emergency services if needed."

/-- Scene description: first two sentences, clipped to 250 chars. -/
def sceneDescriptionOf (response : String) : String :=
  let s := pyStrip (String.intercalate ". " ((response.splitOn ".").take 2))
  if s.length > 250 then String.mk (s.data.take 247) ++ "..." else s

/-- The hazard parser: free-text caption to EmergencyMetrics
(vision_service/ai_client.py, parse_emergency_response). -/
def parse_emergency_response (response timestamp : String)
    (frame_number : ℤ) : EmergencyMetrics :=
  let low := (asciiLower response).data
  let hazards := detectHazards low
  let lvlScore := urgencyFromHazards hazards low
  { timestamp := timestamp
    frame_number := frame_number
    scene_description := sceneDescriptionOf response
    urgency_level := lvlScore.1
    urgency_score := lvlScore.2
    detected_hazards := hazards
    people_count := parsePeopleCount low
    visible_injuries := visibleInjuriesOf low
    environmental_conditions := environmentalOf low hazards
    accessibility_issues := accessibilityOf low hazards
    recommended_action := recommendedActionOf response lvlScore.1
    confidence := 4/5
    raw_response := response }

/-! ## Session events and pipeline state (orchestrator/main.py,
_process_video_session)

Remote collaborators (vision, XAI, agent) are modelled as oracles in
the session configuration: per frame, the vision call either fails with
a non-200 status (the frame is skipped), returns a metrics record, or
raises (aborting the session to the outer error handler); each XAI call
consumes the next outcome of a list; the agent call either returns a
result or fails.  Opaque wire payloads (base64 images, tool-call
dictionaries) are left abstract. -/

/-- Frame data from the extractor, as used by the session loop. -/
structure FrameData where
  frame_number : ℤ
  timestamp : String
deriving DecidableEq, Repr

/-- Outcome of one extracted frame's vision call. -/
inductive FrameStep
  | skip
  | ok (fd : FrameData) (m : EmergencyMetrics)
  | crash (msg : String)
deriving DecidableEq, Repr

/-- Successful XAI analysis payload (opaque fields elided). -/
structure XaiResult where
  explanation : String
  max_score : ℚ
deriving DecidableEq, Repr

/-- One emergency tool invocation as returned by the agent (opaque). -/
structure ToolCall where
  payload : String
deriving DecidableEq, Repr

/-- Successful agent response. -/
structure AgentResult where
  agent_response : String
  emergency_calls : List ToolCall
  actions_taken : List ToolCall
deriving DecidableEq, Repr

/-- Payload of a frame event. -/
structure FrameEvent where
  frame_number : ℤ
  timestamp : String
  urgency_level : String
  scene_description : String
  detected_hazards : List String
  people_count : Option ℤ
  visible_injuries : Bool
  dispatch_recommended : Bool
  recommended_action : String
deriving DecidableEq, Repr

/-- An incident entry; the optional fields are attached after creation
(XAI result on success, agent response after dispatch). -/
structure IncidentEntry where
  timestamp : String
  frame_number : ℤ
  urgency_level : String
  scene_description : String
  detected_hazards : List String
  people_count : Option ℤ
  visible_injuries : Bool
  dispatch_recommended : Bool
  xai_analysis : Option XaiResult := none
  agent_response : Option String := none
  actions_taken : Option (List ToolCall) := none
deriving DecidableEq, Repr

/-- A point of the urgency timeline. -/
structure TimelinePoint where
  timestamp : String
  frame_number : ℤ
  urgency_level : String
  scene_description : String
  detected_hazards : List String
deriving DecidableEq, Repr

/-- Payload of an agent_call event. -/
structure AgentEvent where
  frame_number : ℤ
  agent_response : String
  emergency_responses : List ToolCall
  actions_taken : List ToolCall
  tool_calls : List ToolCall
deriving DecidableEq, Repr

/-- The analysis_summary object of the final report. -/
structure AnalysisSummary where
  total_frames_analyzed : ℕ
  threat_level : String
  dominant_urgency_level : String
  high_urgency_frames : ℕ
  medium_urgency_frames : ℕ
  normal_urgency_frames : ℕ
  low_urgency_frames : ℕ
  max_severity_index : ℚ
  average_severity_index : ℚ
  unique_hazards_detected : List String
  total_incidents : ℕ
  requires_immediate_response : Bool
deriving DecidableEq, Repr

/-- The final report published in the complete event. -/
structure Report where
  analysis_summary : AnalysisSummary
  emergency_responses : List ToolCall
  critical_incidents : List IncidentEntry
  urgency_timeline : List TimelinePoint
  xai_analysis : Option XaiResult
  xai_enabled : Bool
deriving DecidableEq, Repr

/-- Events published on a session's queue. -/
inductive SessionEvent
  | frameEv (e : FrameEvent)
  | incidentEv (e : IncidentEntry)
  | xaiHeatmapEv (frame_number : ℤ) (timestamp : String) (r : XaiResult)
  | xaiErrorEv (frame_number : ℤ) (timestamp detail : String)
  | xaiDisabledEv (frame_number : ℤ) (timestamp reason : String)
  | agentCallEv (e : AgentEvent)
  | toolCallEv (frame_number : ℤ) (tc : ToolCall)
  | completeEv (r : Report)
  | errorEv (detail : String)
  | endEv
deriving DecidableEq, Repr

/-- Observable actions of the pipeline task: event publication and the
final registry cleanup. -/
inductive SessionAction
  | publish (e : SessionEvent)
  | cleanup
deriving DecidableEq, Repr

/-- Session configuration: whether the video opens, the per-frame
vision outcomes, whether XAI is enabled, the XAI call outcomes, and
the agent call outcome (none models a non-200 status or an exception,
which produce no events). -/
structure SessionConfig where
  openOk : Bool
  frames : List FrameStep
  xaiEnabled : Bool
  xaiOutcomes : List (Except String XaiResult)
  agentOutcome : Option AgentResult

/-- Accumulator state of the per-frame loop; urgency_counts is kept as
four fields because resolve_urgency_label provably returns one of the
four initial keys (resolve_urgency_label_mem), so the Python dict never
acquires other keys. -/
structure LoopState where
  frame_count : ℕ := 0
  all_metrics : List EmergencyMetrics := []
  critical_incidents : List IncidentEntry := []
  max_severity : ℚ := 0
  total_hazards : List String := []
  severity_scores : List ℚ := []
  dispatch_candidates : List (EmergencyMetrics × ℚ) := []
  urgency_timeline : List TimelinePoint := []
  best_metrics_entry : Option (EmergencyMetrics × ℚ) := none
  low_count : ℕ := 0
  normal_count : ℕ := 0
  medium_count : ℕ := 0
  high_count : ℕ := 0
  max_urgency_label : String := "low"
  xai_analysis : Option XaiResult := none
  xaiOutcomes : List (Except String XaiResult) := []
  events : List SessionEvent := []

/-- Python set update, modelled as order-preserving dedup insertion
(set iteration order is irrelevant to every claim). -/
def hazardSetUnion (acc new : List String) : List String :=
  new.foldl (fun a h => if h ∈ a then a else a ++ [h]) acc

/-- urgency_counts[label] += 1. -/
def bumpCounts (st : LoopState) (label : String) : LoopState :=
  if label = "low" then { st with low_count := st.low_count + 1 }
  else if label = "normal" then { st with normal_count := st.normal_count + 1 }
  else if label = "medium" then { st with medium_count := st.medium_count + 1 }
  else if label = "high" then { st with high_count := st.high_count + 1 }
  else st

/-- Severity bookkeeping of one loop iteration: scores list, running
maximum, best frame, metrics list, hazard set. -/
def updateSeverityStats (st : LoopState) (m : EmergencyMetrics)
    (severity_index : ℚ) : LoopState :=
  { st with
    severity_scores := st.severity_scores ++ [severity_index]
    max_severity := if severity_index ≥ st.max_severity
      then severity_index else st.max_severity
    best_metrics_entry := match st.best_metrics_entry with
      | none => some (m, severity_index)
      | some be => if severity_index > be.2 then some (m, severity_index) else some be
    all_metrics := st.all_metrics ++ [m]
    total_hazards := hazardSetUnion st.total_hazards m.detected_hazards }

/-- Urgency bookkeeping of one loop iteration: counts and running
maximum label. -/
def updateUrgencyStats (st : LoopState) (label : String) : LoopState :=
  let st := bumpCounts st label
  { st with
    max_urgency_label :=
      if urgencyPriorityD label ≥ urgencyPriorityD st.max_urgency_label
      then label else st.max_urgency_label }

/-- The incident block of one loop iteration: store and publish the
incident, then at most one XAI action. -/
def incidentPhase (xaiEnabled : Bool) (st : LoopState) (fd : FrameData)
    (m : EmergencyMetrics) (label : String) (severity_index : ℚ)
    (dispatch : Bool) : LoopState :=
  if urgencyPriorityD label ≥ urgencyPriorityD "high" || severity_index ≥ 6 then
    let entry : IncidentEntry :=
      { timestamp := fd.timestamp
        frame_number := fd.frame_number
        urgency_level := label
        scene_description := m.scene_description
        detected_hazards := m.detected_hazards
        people_count := m.people_count
        visible_injuries := m.visible_injuries
        dispatch_recommended := dispatch }
    let st := { st with events := st.events ++ [SessionEvent.incidentEv entry] }
    let should_trigger := st.xai_analysis.isNone &&
      (urgencyPriorityD label ≥ urgencyPriorityD "high" ||
        severity_index ≥ 7 || m.visible_injuries)
    if should_trigger && xaiEnabled then
      match st.xaiOutcomes with
      | .ok r :: rest =>
        { st with
          xai_analysis := some r
          xaiOutcomes := rest
          critical_incidents :=
            st.critical_incidents ++ [{ entry with xai_analysis := some r }]
          events := st.events ++ [SessionEvent.xaiHeatmapEv m.frame_number m.timestamp r] }
      | .error d :: rest =>
        { st with
          xaiOutcomes := rest
          critical_incidents := st.critical_incidents ++ [entry]
          events := st.events ++ [SessionEvent.xaiErrorEv m.frame_number m.timestamp d] }
      | [] =>
        { st with
          critical_incidents := st.critical_incidents ++ [entry]
          events := st.events ++
            [SessionEvent.xaiErrorEv m.frame_number m.timestamp "XAI service unreachable"] }
    else if should_trigger && !xaiEnabled then
      { st with
        critical_incidents := st.critical_incidents ++ [entry]
        events := st.events ++
          [SessionEvent.xaiDisabledEv m.frame_number m.timestamp
            "XAI attribution disabled via environment variable"] }
    else
      { st with critical_incidents := st.critical_incidents ++ [entry] }
  else st

/-- Record the frame as a dispatch candidate when the dispatch policy
fires. -/
def appendDispatch (st : LoopState) (m : EmergencyMetrics)
    (severity_index : ℚ) (dispatch : Bool) : LoopState :=
  if dispatch
  then { st with dispatch_candidates := st.dispatch_candidates ++ [(m, severity_index)] }
  else st

/-- One loop iteration over a successfully analyzed frame, in source
order: severity, urgency label, dispatch check, frame event, incident
block, timeline point. -/
def processFrame (xaiEnabled : Bool) (st : LoopState) (fd : FrameData)
    (m : EmergencyMetrics) : LoopState :=
  let severity_index := calculate_emergency_severity m
  let st := updateSeverityStats st m severity_index
  let label := resolve_urgency_label m
  let st := updateUrgencyStats st label
  let dispatch := requires_agent_dispatch m severity_index
  let st := appendDispatch st m severity_index dispatch
  let fev : FrameEvent :=
    { frame_number := m.frame_number
      timestamp := m.timestamp
      urgency_level := label
      scene_description := m.scene_description
      detected_hazards := m.detected_hazards
      people_count := m.people_count
      visible_injuries := m.visible_injuries
      dispatch_recommended := dispatch
      recommended_action := m.recommended_action }
  let st := { st with events := st.events ++ [SessionEvent.frameEv fev] }
  let st := incidentPhase xaiEnabled st fd m label severity_index dispatch
  let point : TimelinePoint :=
    { timestamp := m.timestamp
      frame_number := m.frame_number
      urgency_level := label
      scene_description := m.scene_description
      detected_hazards := m.detected_hazards }
  { st with urgency_timeline := st.urgency_timeline ++ [point] }

/-- The frame loop; a crash (vision exception) aborts with the message
for the outer error handler. -/
def runFrames (xaiEnabled : Bool) : LoopState → List FrameStep →
    LoopState × Option String
  | st, [] => (st, none)
  | st, step :: rest =>
    let st1 := { st with frame_count := st.frame_count + 1 }
    match step with
    | .skip => runFrames xaiEnabled st1 rest
    | .crash msg => (st1, some msg)
    | .ok fd m => runFrames xaiEnabled (processFrame xaiEnabled st1 fd m) rest

/-- Strict lexicographic comparison of Python key tuples (count,
priority). -/
def tupGt (a b : ℕ × ℕ) : Bool :=
  a.1 > b.1 || (a.1 = b.1 && a.2 > b.2)

/-- Dominant label: argmax of urgency_counts items by (count, priority),
first maximum wins; low when no frames were attempted. -/
def dominant_label (st : LoopState) : String :=
  if st.frame_count > 0 then
    let items : List (String × ℕ) :=
      [("low", st.low_count), ("normal", st.normal_count),
       ("medium", st.medium_count), ("high", st.high_count)]
    match items with
    | [] => "low"
    | x :: xs =>
      (xs.foldl (fun cur y =>
        if tupGt (y.2, urgencyPriorityD y.1) (cur.2, urgencyPriorityD cur.1)
        then y else cur) x).1
  else "low"

/-- End-of-stream dispatch selection: any dispatch candidate (greatest
severity, first on ties), else the best frame when its severity is at
least 5.0. -/
def selectDispatch (st : LoopState) : Option (EmergencyMetrics × ℚ) :=
  let should_invoke := !st.dispatch_candidates.isEmpty ||
    (match st.best_metrics_entry with
     | some be => decide (be.2 ≥ 5)
     | none => false)
  if should_invoke then
    match st.best_metrics_entry with
    | none => none
    | some be =>
      match st.dispatch_candidates with
      | [] => some be
      | c :: cs => some (cs.foldl (fun cur y => if y.2 > cur.2 then y else cur) c)
  else none

/-- Attach the agent response to the first incident of the selected
frame (the source breaks after the first match). -/
def applyAgentToIncidents (fn : ℤ) (resp : String) (acts : List ToolCall) :
    List IncidentEntry → List IncidentEntry
  | [] => []
  | e :: rest =>
    if e.frame_number = fn
    then { e with agent_response := some resp, actions_taken := some acts } :: rest
    else e :: applyAgentToIncidents fn resp acts rest

/-- Agent phase data: when a frame is selected and the agent responds,
the agent event, the emergency calls, and the incident list updated
with the agent response. -/
def selectAgentData (st : LoopState) (agentOutcome : Option AgentResult) :
    Option (AgentEvent × List ToolCall × List IncidentEntry) :=
  match selectDispatch st, agentOutcome with
  | some sel, some res =>
    some ({ frame_number := sel.1.frame_number
            agent_response := res.agent_response
            emergency_responses := res.emergency_calls
            actions_taken := res.actions_taken
            tool_calls := res.actions_taken },
          res.emergency_calls,
          applyAgentToIncidents sel.1.frame_number res.agent_response
            res.actions_taken st.critical_incidents)
  | _, _ => none

/-- The agent_call and tool_call events published by the agent phase. -/
def agentEventsOf (d : Option (AgentEvent × List ToolCall × List IncidentEntry)) :
    List SessionEvent :=
  match d with
  | some (aev, calls, _) =>
    SessionEvent.agentCallEv aev :: calls.map (SessionEvent.toolCallEv aev.frame_number)
  | none => []

/-- The emergency_responses of the final report. -/
def emergencyResponsesOf
    (d : Option (AgentEvent × List ToolCall × List IncidentEntry)) : List ToolCall :=
  match d with
  | some (_, calls, _) => calls
  | none => []

/-- The critical_incidents of the final report, given the loop state. -/
def incidentsOf (st : LoopState)
    (d : Option (AgentEvent × List ToolCall × List IncidentEntry)) :
    List IncidentEntry :=
  match d with
  | some (_, _, incs) => incs
  | none => st.critical_incidents

/-- The final report of a session that finished its frame loop. -/
def buildReport (cfg : SessionConfig) (st : LoopState)
    (d : Option (AgentEvent × List ToolCall × List IncidentEntry)) : Report :=
  let avg : ℚ := if st.severity_scores.isEmpty then 0
    else st.severity_scores.sum / st.severity_scores.length
  { analysis_summary :=
      { total_frames_analyzed := st.frame_count
        threat_level := st.max_urgency_label
        dominant_urgency_level := dominant_label st
        high_urgency_frames := st.high_count
        medium_urgency_frames := st.medium_count
        normal_urgency_frames := st.normal_count
        low_urgency_frames := st.low_count
        max_severity_index := pyRound2 st.max_severity
        average_severity_index := pyRound2 avg
        unique_hazards_detected := st.total_hazards
        total_incidents := (incidentsOf st d).length
        requires_immediate_response := !st.dispatch_candidates.isEmpty }
    emergency_responses := emergencyResponsesOf d
    critical_incidents := incidentsOf st d
    urgency_timeline := st.urgency_timeline
    xai_analysis := st.xai_analysis
    xai_enabled := cfg.xaiEnabled }

/-- The pipeline task: the action trace of one video session
(_process_video_session with its finally block). -/
def process_video_session (cfg : SessionConfig) : List SessionAction :=
  if !cfg.openOk then
    [SessionAction.publish (SessionEvent.errorEv "Could not open video file"),
     SessionAction.publish SessionEvent.endEv, SessionAction.cleanup]
  else
    match runFrames cfg.xaiEnabled { xaiOutcomes := cfg.xaiOutcomes } cfg.frames with
    | (st, some msg) =>
      (st.events ++ [SessionEvent.errorEv msg, SessionEvent.endEv]).map
        SessionAction.publish ++ [SessionAction.cleanup]
    | (st, none) =>
      let agentData := selectAgentData st cfg.agentOutcome
      (st.events ++ agentEventsOf agentData ++
          [SessionEvent.completeEv (buildReport cfg st agentData),
           SessionEvent.endEv]).map SessionAction.publish ++
        [SessionAction.cleanup]

/-- The events published by a session, in order. -/
def publishedEvents (cfg : SessionConfig) : List SessionEvent :=
  (process_video_session cfg).filterMap
    (fun a => match a with | .publish e => some e | .cleanup => none)

/-! ## Event predicates -/

/-- Is this an agent_call event? -/
def isAgentCallEv : SessionEvent → Bool
  | .agentCallEv _ => true
  | _ => false

/-- Is this a tool_call event? -/
def isToolCallEv : SessionEvent → Bool
  | .toolCallEv _ _ => true
  | _ => false

/-- Is this an incident event? -/
def isIncidentEv : SessionEvent → Bool
  | .incidentEv _ => true
  | _ => false

/-- Is this an xai_disabled event? -/
def isXaiDisabledEv : SessionEvent → Bool
  | .xaiDisabledEv _ _ _ => true
  | _ => false

/-- Is this a terminal (complete or error) event? -/
def isTerminalEv : SessionEvent → Bool
  | .completeEv _ => true
  | .errorEv _ => true
  | _ => false

/-- Events the per-frame loop may publish: frame and incident events
with a non-critical public label, and XAI events. -/
def goodLoopEvent : SessionEvent → Bool
  | .frameEv f => f.urgency_level != "critical"
  | .incidentEv i => i.urgency_level != "critical"
  | .xaiHeatmapEv _ _ _ => true
  | .xaiErrorEv _ _ _ => true
  | .xaiDisabledEv _ _ _ => true
  | _ => false

/-- No urgency_level field of this event (frame, incident, or any part
of the complete report) is the string critical. -/
def criticalFree : SessionEvent → Bool
  | .frameEv f => f.urgency_level != "critical"
  | .incidentEv i => i.urgency_level != "critical"
  | .completeEv r =>
    r.analysis_summary.threat_level != "critical" &&
    r.analysis_summary.dominant_urgency_level != "critical" &&
    r.critical_incidents.all (fun i => i.urgency_level != "critical") &&
    r.urgency_timeline.all (fun p => p.urgency_level != "critical")
  | _ => true

/-- Loop-state invariant: all published events are loop events with
non-critical labels, all stored incidents and timeline points carry a
non-critical label, and the running maximum label is one of the four
public keys. -/
def LoopInv (st : LoopState) : Prop :=
  (∀ e ∈ st.events, goodLoopEvent e = true) ∧
  (∀ i ∈ st.critical_incidents, i.urgency_level ≠ "critical") ∧
  (∀ p ∈ st.urgency_timeline, p.urgency_level ≠ "critical") ∧
  st.max_urgency_label ∈ ["low", "normal", "medium", "high"]

/-- Metrics of successfully analyzed frames, up to the first vision
exception (which aborts the loop). -/
def okMetricsBefore : List FrameStep → List EmergencyMetrics
  | [] => []
  | .skip :: rest => okMetricsBefore rest
  | .crash _ :: _ => []
  | .ok _ m :: rest => m :: okMetricsBefore rest

/-- The dispatch-candidate pairs contributed by a metrics list. -/
def dispatchPairs (ms : List EmergencyMetrics) : List (EmergencyMetrics × ℚ) :=
  (ms.filter (fun m => requires_agent_dispatch m (calculate_emergency_severity m))).map
    (fun m => (m, calculate_emergency_severity m))

/-- A frame both enters the incident branch and satisfies the XAI
trigger condition (given that no XAI analysis has been stored). -/
def xaiQualifies (m : EmergencyMetrics) : Bool :=
  let severity_index := calculate_emergency_severity m
  let label := resolve_urgency_label m
  (urgencyPriorityD label ≥ urgencyPriorityD "high" || severity_index ≥ 6) &&
  (urgencyPriorityD label ≥ urgencyPriorityD "high" || severity_index ≥ 7 ||
    m.visible_injuries)

/-- Does this event, when it is a complete event, report the expected
requires_immediate_response flag? -/
def completeFlagOkEv (expected : Bool) : SessionEvent → Bool
  | .completeEv r => r.analysis_summary.requires_immediate_response == expected
  | _ => true

/-- The complete report's requires_immediate_response flag agrees with
the existence of a successfully analyzed frame that satisfied the
dispatch policy. -/
def reportFlagOk (cfg : SessionConfig) : Bool :=
  (publishedEvents cfg).all
    (completeFlagOkEv ((okMetricsBefore cfg.frames).any
      (fun m => requires_agent_dispatch m (calculate_emergency_severity m))))

/-! ## Frame extractor (orchestrator/video_processor.py,
VideoProcessor.extract_frames, with the orchestrator's default
max_frames = None) -/

/-- The read loop: starting at source index i with n reads remaining
before decoding stops, collect the indices that are multiples of the
frame interval. -/
def extractFromCount (frame_interval : ℕ) : ℕ → ℕ → List ℕ
  | 0, _ => []
  | n + 1, i =>
    (if i % frame_interval = 0 then [i] else []) ++
      extractFromCount frame_interval n (i + 1)

/-- extract_frames: fails when fps is not positive, else yields the
source indices that are multiples of max(1, int(fps * interval)); the
decoder stops returning frames after total reads. -/
def extract_frames (fps interval_seconds : ℚ) (total : ℕ) :
    Except String (List ℕ) :=
  if fps ≤ 0 then .error "Invalid FPS value"
  else
    let frame_interval := (max 1 (pyTrunc (fps * interval_seconds))).toNat
    .ok (extractFromCount frame_interval total 0)

/-- The claim's sampling predicate, following the spec's words: indices
that are multiples of max(1, round(fps * interval)). -/
def claimedIndices (fps interval_seconds : ℚ) (total : ℕ) : List ℕ :=
  (List.range total).filter
    (fun i => i % (max 1 (pyRoundHalfEven (fps * interval_seconds))).toNat = 0)

/-! ## SSE stream endpoint (orchestrator/main.py,
stream_video_updates): the registry is the set of registered session
ids; the endpoint keeps no record of subscribers. -/

/-- stream_video_updates: 404 when the session id is unknown, else a
streaming response (modelled as ok). -/
def stream_video_updates (streams : List String) (session_id : String) :
    Except ℕ Unit :=
  if streams.contains session_id then .ok () else .error 404

/-- One subscription: the endpoint result paired with the registry,
which subscribing does not modify. -/
def subscribeSession (streams : List String) (session_id : String) :
    Except ℕ Unit × List String :=
  (stream_video_updates streams session_id, streams)

/-- Results of n successive subscriptions to the same session. -/
def subscribeN : ℕ → List String → String → List (Except ℕ Unit)
  | 0, _, _ => []
  | n + 1, streams, sid =>
    let r := subscribeSession streams sid
    r.1 :: subscribeN n r.2 sid

/-! ## Concrete scenario inputs -/

/-- S5 smoke caption: smoke is the only hazard, urgency 7.5. -/
def mSmoke : EmergencyMetrics :=
  parse_emergency_response "Thick smoke rising from the building." "0:00:00" 0

/-- Second smoke frame of the same scene. -/
def mSmoke1 : EmergencyMetrics :=
  parse_emergency_response "Thick smoke rising from the building." "0:00:01" 30

/-- S1 benign caption. -/
def mBenign : EmergencyMetrics :=
  parse_emergency_response
    "A calm street with pedestrians walking. No danger. 3 people." "00:00:00" 0

/-- One-frame smoke session, ready agent, XAI disabled. -/
def cfgSmoke : SessionConfig :=
  { openOk := true
    frames := [.ok ⟨0, "0:00:00"⟩ mSmoke]
    xaiEnabled := false
    xaiOutcomes := []
    agentOutcome := some ⟨"agent response", [⟨"call_authorities"⟩], []⟩ }

/-- Two-frame smoke session with XAI disabled. -/
def cfgSmoke2 : SessionConfig :=
  { openOk := true
    frames := [.ok ⟨0, "0:00:00"⟩ mSmoke, .ok ⟨30, "0:00:01"⟩ mSmoke1]
    xaiEnabled := false
    xaiOutcomes := []
    agentOutcome := none }

/-- One-frame benign session. -/
def cfgBenign : SessionConfig :=
  { openOk := true
    frames := [.ok ⟨0, "00:00:00"⟩ mBenign]
    xaiEnabled := true
    xaiOutcomes := [.ok ⟨"attribution", 1⟩]
    agentOutcome := some ⟨"agent response", [⟨"call_authorities"⟩], []⟩ }

/-- A syntactically valid EmergencyMetrics with a violence hazard and
urgency score 0 (score within the model's [0, 10] bound). -/
def mViolenceZero : EmergencyMetrics :=
  { timestamp := "00:00:00"
    frame_number := 0
    scene_description := "scene"
    urgency_level := .critical
    urgency_score := 0
    detected_hazards := ["violence"]
    people_count := none
    visible_injuries := false
    confidence := 4/5 }

/-! ## Basic lemmas -/

theorem pyRoundHalfEven_ge (q : ℚ) : (pyRoundHalfEven q : ℚ) ≥ q - 1/2 := by
  unfold pyRoundHalfEven
  have hfl : (⌊q⌋ : ℚ) ≤ q := Int.floor_le q
  have hfu : q < (⌊q⌋ : ℚ) + 1 := Int.lt_floor_add_one q
  by_cases h1 : q - (⌊q⌋ : ℚ) < 1/2
  · simp only [h1, if_true]
    linarith
  · simp only [h1, if_false]
    by_cases h2 : (1:ℚ)/2 < q - (⌊q⌋ : ℚ)
    · simp only [h2, if_true]
      push_cast
      linarith
    · simp only [h2, if_false]
      by_cases h3 : (⌊q⌋ : ℤ) % 2 = 0
      · simp only [h3, if_true]
        linarith
      · simp only [h3, if_false]
        push_cast
        linarith

theorem pyRound2_ge (q : ℚ) : pyRound2 q ≥ q - 1/200 := by
  unfold pyRound2
  have h := pyRoundHalfEven_ge (q * 100)
  have h100 : (0:ℚ) < 100 := by norm_num
  rw [ge_iff_le, le_div_iff₀ h100]
  linarith

theorem classify_urgency_val_mem (score : Option ℚ) :
    (classify_urgency score).val ∈ ["low", "normal", "medium", "high"] := by
  unfold classify_urgency
  match score with
  | none => simp [UrgencyLevel.val]
  | some s =>
    by_cases h7 : s ≥ 7
    · simp [h7, UrgencyLevel.val]
    · by_cases h5 : s ≥ 5
      · simp [h7, h5, UrgencyLevel.val]
      · by_cases h3 : s ≥ 3
        · simp [h7, h5, h3, UrgencyLevel.val]
        · simp [h7, h5, h3, UrgencyLevel.val]

theorem urgencyPriority_isSome_mem (label : String)
    (h : (urgencyPriority label).isSome) :
    label ∈ ["low", "normal", "medium", "high"] := by
  unfold urgencyPriority at h
  by_cases h0 : label = "low"
  · simp [h0]
  · by_cases h1 : label = "normal"
    · simp [h1]
    · by_cases h2 : label = "medium"
      · simp [h2]
      · by_cases h3 : label = "high"
        · simp [h3]
        · simp [h0, h1, h2, h3] at h

theorem resolve_urgency_label_core_mem (level_value : String) (score : Option ℚ) :
    resolve_urgency_label_core level_value score
      ∈ ["low", "normal", "medium", "high"] := by
  unfold resolve_urgency_label_core
  by_cases hc : level_value = UrgencyLevel.critical.val
  · simp [hc, UrgencyLevel.val]
  · by_cases hp : (urgencyPriority level_value).isSome
    · simp only [hc, if_false, hp, if_true]
      exact urgencyPriority_isSome_mem level_value hp
    · simp only [hc, if_false, hp, if_false]
      exact classify_urgency_val_mem score

theorem resolve_urgency_label_mem (m : EmergencyMetrics) :
    resolve_urgency_label m ∈ ["low", "normal", "medium", "high"] :=
  resolve_urgency_label_core_mem _ _

theorem resolve_urgency_label_ne_critical (m : EmergencyMetrics) :
    resolve_urgency_label m ≠ "critical" := by
  have h := resolve_urgency_label_mem m
  intro heq
  rw [heq] at h
  simp at h

theorem hazard_weight_nonneg (h : String) : 0 ≤ hazard_weight h := by
  unfold hazard_weight
  split_ifs <;> norm_num

theorem hazard_weight_critical (c : String)
    (h : c = "fire" ∨ c = "medical_emergency" ∨ c = "violence") :
    5/2 ≤ hazard_weight c := by
  rcases h with h | h | h <;> subst h <;> decide

theorem urgencyFromHazards_critical (hazards : List String) (low : List Char)
    (h : ∃ c ∈ hazards, c = "fire" ∨ c = "medical_emergency" ∨ c = "violence") :
    (urgencyFromHazards hazards low).2 = 19/2 := by
  have hany : hazards.any
      (fun h => h == "fire" || h == "violence" || h == "medical_emergency") = true := by
    rw [List.any_eq_true]
    obtain ⟨c, hc, hcrit⟩ := h
    exact ⟨c, hc, by rcases hcrit with h | h | h <;> simp [h]⟩
  unfold urgencyFromHazards
  rw [hany]
  simp

theorem digitsToInt_nonneg (ds : List Char) (hds : ∀ c ∈ ds, c.isDigit = true) :
    0 ≤ digitsToInt ds := by
  have aux : ∀ (l : List Char) (a : ℤ), (∀ c ∈ l, c.isDigit = true) → 0 ≤ a →
      0 ≤ l.foldl (fun n c => n * 10 + ((c.toNat : ℤ) - 48)) a := by
    intro l
    induction l with
    | nil => intro a _ ha; simpa using ha
    | cons c cs ih =>
      intro a hl ha
      simp only [List.foldl_cons]
      apply ih _ (fun d hd => hl d (List.mem_cons_of_mem _ hd))
      have hc := hl c (List.mem_cons_self c cs)
      have h0 : 48 ≤ c.toNat := by
        have h1 : ('0' ≤ c) := by
          simp only [Char.isDigit] at hc
          exact of_decide_eq_true (by
            rcases Bool.and_eq_true (decide ('0' ≤ c)) (decide (c ≤ '9')) |>.mp hc with ⟨h, _⟩
            exact h)
        simpa [Char.le_def, Char.toNat] using h1
      have : (0:ℤ) ≤ (c.toNat : ℤ) - 48 := by
        have := Int.ofNat_le.mpr h0
        omega
      nlinarith
  exact aux ds 0 hds le_rfl

theorem peopleP1At_nonneg (s : List Char) (v : ℤ) (h : peopleP1At s = some v) :
    0 ≤ v := by
  unfold peopleP1At at h
  dsimp only at h
  split_ifs at h
  all_goals
    first
      | exact Option.noConfusion h
      | (injection h with h
         subst h
         exact digitsToInt_nonneg _ (fun c hc => List.mem_takeWhile_imp hc))

theorem peopleP2At_nonneg (s : List Char) (v : ℤ) (h : peopleP2At s = some v) :
    0 ≤ v := by
  unfold peopleP2At at h
  dsimp only at h
  split_ifs at h
  all_goals
    first
      | exact Option.noConfusion h
      | (injection h with h
         subst h
         exact digitsToInt_nonneg _ (fun c hc => List.mem_takeWhile_imp hc))

theorem peopleP3At_nonneg (s : List Char) (v : ℤ) (h : peopleP3At s = some v) :
    0 ≤ v := by
  unfold peopleP3At at h
  dsimp only at h
  split_ifs at h
  all_goals
    first
      | exact Option.noConfusion h
      | (injection h with h
         subst h
         exact digitsToInt_nonneg _ (fun c hc => List.mem_takeWhile_imp hc))

theorem peopleP4At_nonneg (s : List Char) (v : ℤ) (h : peopleP4At s = some v) :
    0 ≤ v := by
  unfold peopleP4At at h
  dsimp only at h
  split_ifs at h
  all_goals
    first
      | exact Option.noConfusion h
      | (injection h with h
         subst h
         exact digitsToInt_nonneg _ (fun c hc => List.mem_takeWhile_imp hc))

theorem searchOpt_some (f : List Char → Option ℤ) (l : List Char) (v : ℤ)
    (h : searchOpt f l = some v) : ∃ s, f s = some v := by
  induction l with
  | nil => exact ⟨[], by simpa [searchOpt] using h⟩
  | cons c rest ih =>
    unfold searchOpt at h
    rcases hf : f (c :: rest) with _ | w
    · rw [hf] at h
      dsimp only at h
      exact ih h
    · rw [hf] at h
      dsimp only at h
      exact ⟨c :: rest, hf.trans h⟩

theorem parsePeopleCount_nonneg (low : List Char) (v : ℤ)
    (h : parsePeopleCount low = some v) : 0 ≤ v := by
  unfold parsePeopleCount at h
  rcases h1 : searchOpt peopleP1At low with _ | w
  · rw [h1] at h
    rcases h2 : searchOpt peopleP2At low with _ | w
    · rw [h2] at h
      rcases h3 : searchOpt peopleP3At low with _ | w
      · rw [h3] at h
        rcases h4 : searchOpt peopleP4At low with _ | w
        · rw [h4] at h
          split_ifs at h
          all_goals simp_all
        · rw [h4] at h
          obtain ⟨s, hs⟩ := searchOpt_some _ _ _ h4
          cases h
          exact peopleP4At_nonneg s v hs
      · rw [h3] at h
        obtain ⟨s, hs⟩ := searchOpt_some _ _ _ h3
        cases h
        exact peopleP3At_nonneg s v hs
    · rw [h2] at h
      obtain ⟨s, hs⟩ := searchOpt_some _ _ _ h2
      cases h
      exact peopleP2At_nonneg s v hs
  · rw [h1] at h
    obtain ⟨s, hs⟩ := searchOpt_some _ _ _ h1
    cases h
    exact peopleP1At_nonneg s v hs

/-! ## Claim C2 -/

/-- C2 (counterexample): the claim quantifies over every
EmergencyMetrics; a record with the violence hazard but urgency score 0
(within the model's bounds) has severity 2.5 < 6.0. -/
theorem C2_counterexample :
    "violence" ∈ mViolenceZero.detected_hazards ∧
    0 ≤ mViolenceZero.urgency_score ∧ mViolenceZero.urgency_score ≤ 10 ∧
    calculate_emergency_severity mViolenceZero = 5/2 ∧
    ¬ 6 ≤ calculate_emergency_severity mViolenceZero := by
  decide

/-- C2 (amended): for every metrics record produced by the hazard
parser, a detected critical hazard (fire, medical_emergency, violence)
forces urgency score 9.5, and then the severity index is at least
6.0. -/
theorem C2_parser_critical_severity (response timestamp : String) (n : ℤ)
    (h : ∃ c ∈ (parse_emergency_response response timestamp n).detected_hazards,
      c = "fire" ∨ c = "medical_emergency" ∨ c = "violence") :
    6 ≤ calculate_emergency_severity (parse_emergency_response response timestamp n) := by
  have hhaz : (parse_emergency_response response timestamp n).detected_hazards
      = detectHazards ((asciiLower response).data) := rfl
  have hscore : (parse_emergency_response response timestamp n).urgency_score
      = (urgencyFromHazards (detectHazards ((asciiLower response).data))
          ((asciiLower response).data)).2 := rfl
  have h95 : (parse_emergency_response response timestamp n).urgency_score = 19/2 := by
    rw [hscore]
    exact urgencyFromHazards_critical _ _ (hhaz ▸ h)
  set m := parse_emergency_response response timestamp n with hm
  obtain ⟨c, hc, hcrit⟩ := h
  have hw : 5/2 ≤ hazard_weight c := hazard_weight_critical c hcrit
  have hsum : hazard_weight c ≤ (m.detected_hazards.map hazard_weight).sum := by
    apply List.single_le_sum
    · intro x hx
      obtain ⟨y, _, hy⟩ := List.mem_map.mp hx
      exact hy ▸ hazard_weight_nonneg y
    · exact List.mem_map_of_mem hazard_weight hc
  have hinj : (0:ℚ) ≤ (if m.visible_injuries then (5:ℚ)/2 else 0) := by
    split_ifs <;> norm_num
  have hppl : (0:ℚ) ≤ ((min (m.people_count.getD 0) 5 : ℤ) : ℚ) * (3/10) := by
    have hpc : m.people_count = parsePeopleCount ((asciiLower response).data) := rfl
    have hmin : (0:ℤ) ≤ min (m.people_count.getD 0) 5 := by
      rcases hp : m.people_count with _ | v
      · simp [hp]
      · have hv : 0 ≤ v := parsePeopleCount_nonneg _ v (by rw [← hpc, hp])
        simp only [hp, Option.getD_some]
        exact le_min hv (by norm_num)
    exact mul_nonneg (by exact_mod_cast hmin) (by norm_num)
  have hx : (63:ℚ)/10 ≤ m.urgency_score * (2/5)
      + (m.detected_hazards.map hazard_weight).sum
      + (if m.visible_injuries then (5:ℚ)/2 else 0)
      + ((min (m.people_count.getD 0) 5 : ℤ) : ℚ) * (3/10) := by
    rw [h95]
    linarith
  unfold calculate_emergency_severity
  rw [le_min_iff]
  constructor
  · norm_num
  · have hr := pyRound2_ge (m.urgency_score * (2/5)
      + (m.detected_hazards.map hazard_weight).sum
      + (if m.visible_injuries then (5:ℚ)/2 else 0)
      + ((min (m.people_count.getD 0) 5 : ℤ) : ℚ) * (3/10))
    linarith

/-- C2 witness: a caption with an attack yields the violence hazard and
severity at least 6. -/
theorem C2_witness :
    6 ≤ calculate_emergency_severity
      (parse_emergency_response "A man attacked with a knife" "t" 1) :=
  C2_parser_critical_severity "A man attacked with a knife" "t" 1
    ⟨"violence", by decide, by decide⟩

/-! ## Claim C3 -/

/-- C3: the urgency-label resolution maps critical to high, passes the
four public labels through, and otherwise reclassifies from the score
with thresholds 7.0, 5.0, 3.0; in particular a level outside the set
with score in [3, 5) resolves to normal. -/
theorem C3_public_urgency (level : String) (score : ℚ) :
    resolve_urgency_label_core "critical" (some score) = "high" ∧
    (level ∈ ["low", "normal", "medium", "high"] →
      resolve_urgency_label_core level (some score) = level) ∧
    (level ∉ ["low", "normal", "medium", "high", "critical"] →
      resolve_urgency_label_core level (some score) =
        (if score ≥ 7 then "high" else if score ≥ 5 then "medium"
         else if score ≥ 3 then "normal" else "low")) ∧
    (level ∉ ["low", "normal", "medium", "high", "critical"] →
      3 ≤ score → score < 5 →
      resolve_urgency_label_core level (some score) = "normal") := by
  have hthird : level ∉ ["low", "normal", "medium", "high", "critical"] →
      resolve_urgency_label_core level (some score) =
        (if score ≥ 7 then "high" else if score ≥ 5 then "medium"
         else if score ≥ 3 then "normal" else "low") := by
    intro hnot
    simp only [List.mem_cons, List.mem_singleton, not_or] at hnot
    obtain ⟨hl, hn, hm, hh, hc⟩ := hnot
    unfold resolve_urgency_label_core
    rw [if_neg (by simpa [UrgencyLevel.val] using hc)]
    have hp : urgencyPriority level = none := by
      unfold urgencyPriority
      simp [hl, hn, hm, hh]
    rw [hp]
    simp only [Option.isSome_none, Bool.false_eq_true, if_false]
    unfold classify_urgency
    dsimp only
    by_cases h7 : score ≥ (7:ℚ)
    · rw [if_pos h7, if_pos h7]
      rfl
    · rw [if_neg h7, if_neg h7]
      by_cases h5 : score ≥ (5:ℚ)
      · rw [if_pos h5, if_pos h5]
        rfl
      · rw [if_neg h5, if_neg h5]
        by_cases h3 : score ≥ (3:ℚ)
        · rw [if_pos h3, if_pos h3]
          rfl
        · rw [if_neg h3, if_neg h3]
          rfl
  refine ⟨rfl, ?_, hthird, ?_⟩
  · intro hmem
    simp only [List.mem_cons, List.not_mem_nil, or_false] at hmem
    rcases hmem with rfl | rfl | rfl | rfl <;> rfl
  · intro hnot h3 h5
    rw [hthird hnot]
    rw [if_neg (by linarith), if_neg (by linarith), if_pos (by linarith)]

/-- C3 witness: an out-of-set level with score 4 resolves to normal. -/
theorem C3_witness :
    resolve_urgency_label_core "elevated" (some 4) = "normal" :=
  (C3_public_urgency "elevated" 4).2.2.2 (by decide) (by norm_num) (by norm_num)

/-! ## Claim C1 -/

/-- C1 (counterexample): for the session whose only analyzed frame is
the smoke-only caption (urgency 7.5, severity 5.0), dispatch is indeed
not required, but an agent_call event is published: the best-frame
fallback fires at severity 5.0 >= 5.0. -/
theorem C1_counterexample :
    calculate_emergency_severity mSmoke = 5 ∧
    requires_agent_dispatch mSmoke (calculate_emergency_severity mSmoke) = false ∧
    (publishedEvents cfgSmoke).any isAgentCallEv = true := by
  decide

/-- C1 (amended): smoke-only caption gives hazards [smoke], urgency
7.5, severity 5.0, dispatch_required false and public label high; the
session still invokes the agent through the best-frame fallback
(severity 5.0 >= 5.0) and publishes agent_call and tool_call events
when the agent responds. -/
theorem C1_smoke_fallback_agent :
    mSmoke.detected_hazards = ["smoke"] ∧
    mSmoke.urgency_score = 15/2 ∧
    calculate_emergency_severity mSmoke = 5 ∧
    requires_agent_dispatch mSmoke (calculate_emergency_severity mSmoke) = false ∧
    resolve_urgency_label mSmoke = "high" ∧
    (publishedEvents cfgSmoke).any isAgentCallEv = true ∧
    (publishedEvents cfgSmoke).any isToolCallEv = true := by
  decide

/-! ## Claim C7 -/

/-- C7 (counterexample): the severity index of the benign caption's
metrics is 1.5 (base 0.6 plus people bonus 3 * 0.3), not 0.6. -/
theorem C7_counterexample :
    calculate_emergency_severity mBenign = 3/2 ∧
    ¬ calculate_emergency_severity mBenign = 3/5 := by
  decide

/-- C7 (amended): the benign caption parses to urgency low with score
1.5, no hazards, 3 people, no injuries; its severity index is 1.5, and
the session publishes no incident, agent_call, or tool_call event. -/
theorem C7_benign_scene :
    mBenign.urgency_level = .low ∧
    mBenign.urgency_score = 3/2 ∧
    mBenign.detected_hazards = [] ∧
    mBenign.people_count = some 3 ∧
    mBenign.visible_injuries = false ∧
    calculate_emergency_severity mBenign = 3/2 ∧
    (publishedEvents cfgBenign).any isIncidentEv = false ∧
    (publishedEvents cfgBenign).any isAgentCallEv = false ∧
    (publishedEvents cfgBenign).any isToolCallEv = false := by
  decide

/-! ## Claim C8 -/

theorem extractFromCount_eq (fi n : ℕ) : ∀ i,
    extractFromCount fi n i = (List.range' i n).filter (fun j => j % fi = 0) := by
  induction n with
  | zero => intro i; simp [extractFromCount]
  | succ k ih =>
    intro i
    rw [extractFromCount, List.range'_succ, List.filter_cons]
    by_cases hi : i % fi = 0
    · simp [hi, ih]
    · simp [hi, ih]

/-- C8 (counterexample): with fps 2.6 and interval 1 s, the code's
interval is max(1, int(2.6)) = 2 while the claim's is
max(1, round(2.6)) = 3; on a 3-frame video the extractor yields frames
0 and 2, not only the claimed multiples of 3. -/
theorem C8_counterexample :
    extract_frames (13/5) 1 3 = .ok [0, 2] ∧
    claimedIndices (13/5) 1 3 = [0] ∧
    ¬ (([0, 2] : List ℕ) = [0]) := by
  refine ⟨rfl, rfl, by decide⟩

/-- C8 (amended): for fps > 0 the extractor yields exactly the source
indices that are multiples of max(1, int(fps * interval)) (truncation,
not rounding), as a finite strictly increasing list. -/
theorem C8_extract_frames_spec (fps interval_seconds : ℚ) (total : ℕ)
    (hfps : 0 < fps) :
    extract_frames fps interval_seconds total =
      .ok ((List.range total).filter
        (fun i => i % (max 1 (pyTrunc (fps * interval_seconds))).toNat = 0)) ∧
    ((List.range total).filter
        (fun i => i % (max 1 (pyTrunc (fps * interval_seconds))).toNat = 0)).Pairwise
      (· < ·) := by
  constructor
  · unfold extract_frames
    rw [if_neg (not_le.mpr hfps)]
    dsimp only
    rw [extractFromCount_eq, List.range_eq_range']
  · exact (List.pairwise_lt_range total).sublist (List.filter_sublist _)

/-- C8 witness: fps 30, interval 1 s, three source frames. -/
theorem C8_witness :
    extract_frames 30 1 3 =
      .ok ((List.range 3).filter
        (fun i => i % (max 1 (pyTrunc (30 * 1))).toNat = 0)) ∧
    ((List.range 3).filter
        (fun i => i % (max 1 (pyTrunc (30 * 1))).toNat = 0)).Pairwise (· < ·) :=
  C8_extract_frames_spec 30 1 3 (by norm_num)

/-! ## Claim C9 -/

/-- C9 (counterexample): after a first subscription to a registered
session, a second subscription to the same session succeeds with a
stream (it is not rejected with 409): the endpoint keeps no record of
subscribers. -/
theorem C9_counterexample :
    (subscribeSession (subscribeSession ["session"] "session").2 "session").1
      = .ok () ∧
    (subscribeSession (subscribeSession ["session"] "session").2 "session").1
      ≠ .error 409 := by
  have h1 : (subscribeSession (subscribeSession ["session"] "session").2
      "session").1 = .ok () := rfl
  refine ⟨h1, ?_⟩
  intro h
  rw [h1] at h
  exact Except.noConfusion h

/-- C9 (amended): any number of successive subscriptions to a
registered session all succeed; only an unknown session id is rejected
(with 404). -/
theorem C9_subscribe_always_ok (streams : List String) (sid : String) (n : ℕ)
    (h : sid ∈ streams) :
    ∀ r ∈ subscribeN n streams sid, r = .ok () := by
  induction n with
  | zero => intro r hr; simp [subscribeN] at hr
  | succ k ih =>
    intro r hr
    rw [subscribeN] at hr
    rcases List.mem_cons.mp hr with h1 | h1
    · subst h1
      show stream_video_updates streams sid = .ok ()
      unfold stream_video_updates
      rw [if_pos]
      exact List.elem_iff.mpr h
    · exact ih r h1

/-- C9 witness: a subscription to an existing session succeeds. -/
theorem C9_witness :
    "session" ∈ ["session"] ∧
    (subscribeSession ["session"] "session").1 = Except.ok () :=
  ⟨by decide,
   C9_subscribe_always_ok ["session"] "session" 1 (by decide) _
     (List.mem_singleton.mpr rfl)⟩

/-! ## Pipeline lemmas -/

@[simp] theorem bumpCounts_events (st : LoopState) (l : String) :
    (bumpCounts st l).events = st.events := by
  unfold bumpCounts; split_ifs <;> rfl

@[simp] theorem bumpCounts_incidents (st : LoopState) (l : String) :
    (bumpCounts st l).critical_incidents = st.critical_incidents := by
  unfold bumpCounts; split_ifs <;> rfl

@[simp] theorem bumpCounts_timeline (st : LoopState) (l : String) :
    (bumpCounts st l).urgency_timeline = st.urgency_timeline := by
  unfold bumpCounts; split_ifs <;> rfl

@[simp] theorem bumpCounts_max_label (st : LoopState) (l : String) :
    (bumpCounts st l).max_urgency_label = st.max_urgency_label := by
  unfold bumpCounts; split_ifs <;> rfl

@[simp] theorem bumpCounts_xai (st : LoopState) (l : String) :
    (bumpCounts st l).xai_analysis = st.xai_analysis := by
  unfold bumpCounts; split_ifs <;> rfl

@[simp] theorem bumpCounts_xaiOutcomes (st : LoopState) (l : String) :
    (bumpCounts st l).xaiOutcomes = st.xaiOutcomes := by
  unfold bumpCounts; split_ifs <;> rfl

@[simp] theorem bumpCounts_candidates (st : LoopState) (l : String) :
    (bumpCounts st l).dispatch_candidates = st.dispatch_candidates := by
  unfold bumpCounts; split_ifs <;> rfl

@[simp] theorem bumpCounts_best (st : LoopState) (l : String) :
    (bumpCounts st l).best_metrics_entry = st.best_metrics_entry := by
  unfold bumpCounts; split_ifs <;> rfl

theorem goodLoopEvent_not_terminal (e : SessionEvent)
    (h : goodLoopEvent e = true) :
    isTerminalEv e = false ∧ e ≠ SessionEvent.endEv := by
  cases e <;> simp_all [goodLoopEvent, isTerminalEv]

theorem goodLoopEvent_criticalFree (e : SessionEvent)
    (h : goodLoopEvent e = true) : criticalFree e = true := by
  cases e <;> simp_all [goodLoopEvent, criticalFree]

theorem goodLoopEvent_not_complete (e : SessionEvent)
    (h : goodLoopEvent e = true) :
    (match e with
     | SessionEvent.completeEv _ => false
     | _ => true) = true := by
  cases e <;> first | rfl | exact Bool.noConfusion h

theorem foldl_pick_mem {α : Type} (g : α → α → Bool) (x : α) (xs : List α) :
    xs.foldl (fun cur y => if g cur y then y else cur) x ∈ x :: xs := by
  induction xs generalizing x with
  | nil => simp
  | cons y ys ih =>
    simp only [List.foldl_cons]
    by_cases hg : g x y
    · rw [if_pos hg]
      exact List.mem_cons_of_mem x (ih y)
    · rw [if_neg hg]
      rcases List.mem_cons.mp (ih x) with h1 | h1
      · simp [h1]
      · simp [List.mem_cons, h1]

theorem dominant_label_mem (st : LoopState) :
    dominant_label st ∈ ["low", "normal", "medium", "high"] := by
  unfold dominant_label
  split_ifs with h
  · dsimp only
    have hmem := foldl_pick_mem
      (fun cur y => tupGt (y.2, urgencyPriorityD y.1) (cur.2, urgencyPriorityD cur.1))
      ("low", st.low_count)
      [("normal", st.normal_count), ("medium", st.medium_count),
       ("high", st.high_count)]
    rcases List.mem_cons.mp hmem with h1 | h1
    · rw [h1]; simp
    · rcases List.mem_cons.mp h1 with h2 | h2
      · rw [h2]; simp
      · rcases List.mem_cons.mp h2 with h3 | h3
        · rw [h3]; simp
        · rcases List.mem_cons.mp h3 with h4 | h4
          · rw [h4]; simp
          · cases h4
  · simp

theorem applyAgentToIncidents_urgency (fn : ℤ) (resp : String)
    (acts : List ToolCall) :
    ∀ (l : List IncidentEntry) (i : IncidentEntry),
      i ∈ applyAgentToIncidents fn resp acts l →
      ∃ j ∈ l, i.urgency_level = j.urgency_level := by
  intro l
  induction l with
  | nil => intro i hi; simp [applyAgentToIncidents] at hi
  | cons e rest ih =>
    intro i hi
    rw [applyAgentToIncidents] at hi
    split_ifs at hi with hfn
    · rcases List.mem_cons.mp hi with h1 | h1
      · exact ⟨e, List.mem_cons_self e rest, by rw [h1]⟩
      · exact ⟨i, List.mem_cons_of_mem e h1, rfl⟩
    · rcases List.mem_cons.mp hi with h1 | h1
      · exact ⟨e, List.mem_cons_self e rest, by rw [h1]⟩
      · obtain ⟨j, hj, hju⟩ := ih i h1
        exact ⟨j, List.mem_cons_of_mem e hj, hju⟩

theorem filterMap_publish (l : List SessionEvent) :
    ((l.map SessionAction.publish ++ [SessionAction.cleanup]).filterMap
      (fun a => match a with
        | SessionAction.publish e => some e
        | SessionAction.cleanup => none)) = l := by
  induction l with
  | nil => rfl
  | cons e rest ih => simpa [List.filterMap_cons] using ih

theorem filter_isEmpty_eq_not_any {α : Type} (p : α → Bool) (l : List α) :
    (l.filter p).isEmpty = !l.any p := by
  induction l with
  | nil => rfl
  | cons a rest ih =>
    rw [List.filter_cons]
    by_cases ha : p a
    · simp [ha]
    · simp [ha, ih]

theorem dispatchPairs_cons (m : EmergencyMetrics) (ms : List EmergencyMetrics) :
    dispatchPairs (m :: ms) =
      (if requires_agent_dispatch m (calculate_emergency_severity m)
       then [(m, calculate_emergency_severity m)] else []) ++ dispatchPairs ms := by
  unfold dispatchPairs
  rw [List.filter_cons]
  split_ifs with h
  · simp
  · simp

@[simp] theorem updateSeverityStats_events (st : LoopState) (m : EmergencyMetrics)
    (s : ℚ) : (updateSeverityStats st m s).events = st.events := by
  rfl

@[simp] theorem updateSeverityStats_incidents (st : LoopState)
    (m : EmergencyMetrics) (s : ℚ) :
    (updateSeverityStats st m s).critical_incidents = st.critical_incidents := by
  rfl

@[simp] theorem updateSeverityStats_timeline (st : LoopState)
    (m : EmergencyMetrics) (s : ℚ) :
    (updateSeverityStats st m s).urgency_timeline = st.urgency_timeline := by
  rfl

@[simp] theorem updateSeverityStats_max_label (st : LoopState)
    (m : EmergencyMetrics) (s : ℚ) :
    (updateSeverityStats st m s).max_urgency_label = st.max_urgency_label := by
  rfl

@[simp] theorem updateSeverityStats_xai (st : LoopState) (m : EmergencyMetrics)
    (s : ℚ) : (updateSeverityStats st m s).xai_analysis = st.xai_analysis := by
  rfl

@[simp] theorem updateSeverityStats_xaiOutcomes (st : LoopState)
    (m : EmergencyMetrics) (s : ℚ) :
    (updateSeverityStats st m s).xaiOutcomes = st.xaiOutcomes := by
  rfl

@[simp] theorem updateSeverityStats_candidates (st : LoopState)
    (m : EmergencyMetrics) (s : ℚ) :
    (updateSeverityStats st m s).dispatch_candidates = st.dispatch_candidates := by
  rfl

@[simp] theorem updateUrgencyStats_events (st : LoopState) (l : String) :
    (updateUrgencyStats st l).events = st.events := by
  unfold updateUrgencyStats; dsimp only; simp

@[simp] theorem updateUrgencyStats_incidents (st : LoopState) (l : String) :
    (updateUrgencyStats st l).critical_incidents = st.critical_incidents := by
  unfold updateUrgencyStats; dsimp only; simp

@[simp] theorem updateUrgencyStats_timeline (st : LoopState) (l : String) :
    (updateUrgencyStats st l).urgency_timeline = st.urgency_timeline := by
  unfold updateUrgencyStats; dsimp only; simp

@[simp] theorem updateUrgencyStats_xai (st : LoopState) (l : String) :
    (updateUrgencyStats st l).xai_analysis = st.xai_analysis := by
  unfold updateUrgencyStats; dsimp only; simp

@[simp] theorem updateUrgencyStats_xaiOutcomes (st : LoopState) (l : String) :
    (updateUrgencyStats st l).xaiOutcomes = st.xaiOutcomes := by
  unfold updateUrgencyStats; dsimp only; simp

@[simp] theorem updateUrgencyStats_candidates (st : LoopState) (l : String) :
    (updateUrgencyStats st l).dispatch_candidates = st.dispatch_candidates := by
  unfold updateUrgencyStats; dsimp only; simp

theorem updateUrgencyStats_max_label (st : LoopState) (l : String) :
    (updateUrgencyStats st l).max_urgency_label = st.max_urgency_label ∨
      (updateUrgencyStats st l).max_urgency_label = l := by
  unfold updateUrgencyStats
  dsimp only
  split
  · right; rfl
  · left; simp

@[simp] theorem incidentPhase_timeline (x : Bool) (st : LoopState)
    (fd : FrameData) (m : EmergencyMetrics) (l : String) (s : ℚ) (d : Bool) :
    (incidentPhase x st fd m l s d).urgency_timeline = st.urgency_timeline := by
  unfold incidentPhase
  dsimp only
  split
  · split
    · split
      · rfl
      · rfl
      · rfl
    · split
      · rfl
      · rfl
  · rfl

@[simp] theorem incidentPhase_max_label (x : Bool) (st : LoopState)
    (fd : FrameData) (m : EmergencyMetrics) (l : String) (s : ℚ) (d : Bool) :
    (incidentPhase x st fd m l s d).max_urgency_label = st.max_urgency_label := by
  unfold incidentPhase
  dsimp only
  split
  · split
    · split
      · rfl
      · rfl
      · rfl
    · split
      · rfl
      · rfl
  · rfl

@[simp] theorem incidentPhase_candidates (x : Bool) (st : LoopState)
    (fd : FrameData) (m : EmergencyMetrics) (l : String) (s : ℚ) (d : Bool) :
    (incidentPhase x st fd m l s d).dispatch_candidates =
      st.dispatch_candidates := by
  unfold incidentPhase
  dsimp only
  split
  · split
    · split
      · rfl
      · rfl
      · rfl
    · split
      · rfl
      · rfl
  · rfl

theorem incidentPhase_events_good (x : Bool) (st : LoopState) (fd : FrameData)
    (m : EmergencyMetrics) (l : String) (s : ℚ) (d : Bool)
    (hgood : ∀ e ∈ st.events, goodLoopEvent e = true) (hlab : l ≠ "critical") :
    ∀ e ∈ (incidentPhase x st fd m l s d).events, goodLoopEvent e = true := by
  unfold incidentPhase
  dsimp only
  split
  case' isTrue =>
    split
    case' isTrue => split
    case' isFalse => split
  all_goals intro e he'
  all_goals
    try simp only [List.mem_append, List.mem_singleton] at he'
  all_goals
    first
      | exact hgood e he'
      | (rcases he' with he' | rfl
         · rcases he' with he' | rfl
           · exact hgood e he'
           · simp [goodLoopEvent, hlab]
         · simp [goodLoopEvent])
      | (rcases he' with he' | rfl
         · exact hgood e he'
         · simp [goodLoopEvent, hlab])

theorem incidentPhase_incidents_good (x : Bool) (st : LoopState) (fd : FrameData)
    (m : EmergencyMetrics) (l : String) (s : ℚ) (d : Bool)
    (hinc : ∀ i ∈ st.critical_incidents, i.urgency_level ≠ "critical")
    (hlab : l ≠ "critical") :
    ∀ i ∈ (incidentPhase x st fd m l s d).critical_incidents,
      i.urgency_level ≠ "critical" := by
  unfold incidentPhase
  dsimp only
  split
  case' isTrue =>
    split
    case' isTrue => split
    case' isFalse => split
  all_goals intro i hi'
  all_goals
    first
      | exact hinc i hi'
      | (rcases List.mem_append.mp hi' with hi' | hi'
         · exact hinc i hi'
         · simp only [List.mem_singleton] at hi'
           subst hi'
           exact hlab)

@[simp] theorem appendDispatch_events (st : LoopState) (m : EmergencyMetrics)
    (s : ℚ) (d : Bool) : (appendDispatch st m s d).events = st.events := by
  unfold appendDispatch; split <;> rfl

@[simp] theorem appendDispatch_incidents (st : LoopState) (m : EmergencyMetrics)
    (s : ℚ) (d : Bool) :
    (appendDispatch st m s d).critical_incidents = st.critical_incidents := by
  unfold appendDispatch; split <;> rfl

@[simp] theorem appendDispatch_timeline (st : LoopState) (m : EmergencyMetrics)
    (s : ℚ) (d : Bool) :
    (appendDispatch st m s d).urgency_timeline = st.urgency_timeline := by
  unfold appendDispatch; split <;> rfl

@[simp] theorem appendDispatch_max_label (st : LoopState) (m : EmergencyMetrics)
    (s : ℚ) (d : Bool) :
    (appendDispatch st m s d).max_urgency_label = st.max_urgency_label := by
  unfold appendDispatch; split <;> rfl

@[simp] theorem appendDispatch_xai (st : LoopState) (m : EmergencyMetrics)
    (s : ℚ) (d : Bool) :
    (appendDispatch st m s d).xai_analysis = st.xai_analysis := by
  unfold appendDispatch; split <;> rfl

@[simp] theorem appendDispatch_xaiOutcomes (st : LoopState)
    (m : EmergencyMetrics) (s : ℚ) (d : Bool) :
    (appendDispatch st m s d).xaiOutcomes = st.xaiOutcomes := by
  unfold appendDispatch; split <;> rfl

theorem appendDispatch_candidates (st : LoopState) (m : EmergencyMetrics)
    (s : ℚ) (d : Bool) :
    (appendDispatch st m s d).dispatch_candidates =
      st.dispatch_candidates ++ (if d then [(m, s)] else []) := by
  unfold appendDispatch; split <;> simp_all

theorem incidentPhase_xai_false (st : LoopState) (fd : FrameData)
    (m : EmergencyMetrics) (l : String) (s : ℚ) (d : Bool) :
    (incidentPhase false st fd m l s d).xai_analysis = st.xai_analysis := by
  unfold incidentPhase
  dsimp only
  split
  · split
    · next h => simp at h
    · split
      · rfl
      · rfl
  · rfl

theorem incidentPhase_disabled_count (st : LoopState) (fd : FrameData)
    (m : EmergencyMetrics) (l : String) (s : ℚ) (d : Bool) :
    (incidentPhase false st fd m l s d).events.countP isXaiDisabledEv =
      st.events.countP isXaiDisabledEv +
        (if ((decide (urgencyPriorityD l ≥ urgencyPriorityD "high") || decide (s ≥ 6)) &&
             (st.xai_analysis.isNone &&
              (decide (urgencyPriorityD l ≥ urgencyPriorityD "high") ||
                decide (s ≥ 7) || m.visible_injuries))) = true
         then 1 else 0) := by
  unfold incidentPhase
  dsimp only
  split
  · next h1 =>
    split
    · next h => simp at h
    · split
      · next h2 =>
        simp only [Bool.not_false, Bool.and_true] at h2
        rw [h1, h2]
        simp [List.countP_append, List.countP_cons, isXaiDisabledEv]
      · next h2 =>
        simp only [Bool.not_false, Bool.and_true] at h2
        rw [h1]
        rw [if_neg (by simpa using h2)]
        simp [List.countP_append, List.countP_cons, isXaiDisabledEv]
  · next h1 =>
    rw [if_neg (by simp_all)]
    simp

theorem processFrame_timeline (x : Bool) (st : LoopState) (fd : FrameData)
    (m : EmergencyMetrics) :
    (processFrame x st fd m).urgency_timeline =
      st.urgency_timeline ++
        [{ timestamp := m.timestamp
           frame_number := m.frame_number
           urgency_level := resolve_urgency_label m
           scene_description := m.scene_description
           detected_hazards := m.detected_hazards }] := by
  unfold processFrame
  dsimp only
  simp

theorem processFrame_events_good (x : Bool) (st : LoopState) (fd : FrameData)
    (m : EmergencyMetrics) (hgood : ∀ e ∈ st.events, goodLoopEvent e = true) :
    ∀ e ∈ (processFrame x st fd m).events, goodLoopEvent e = true := by
  unfold processFrame
  dsimp only
  apply incidentPhase_events_good
  · intro e he'
    simp only [List.mem_append, List.mem_singleton, appendDispatch_events,
      updateUrgencyStats_events, updateSeverityStats_events] at he'
    rcases he' with he' | rfl
    · exact hgood e he'
    · simp [goodLoopEvent, resolve_urgency_label_ne_critical m]
  · exact resolve_urgency_label_ne_critical m

theorem processFrame_incidents_good (x : Bool) (st : LoopState) (fd : FrameData)
    (m : EmergencyMetrics)
    (hinc : ∀ i ∈ st.critical_incidents, i.urgency_level ≠ "critical") :
    ∀ i ∈ (processFrame x st fd m).critical_incidents,
      i.urgency_level ≠ "critical" := by
  unfold processFrame
  dsimp only
  apply incidentPhase_incidents_good
  · intro i hi'
    simp only [appendDispatch_incidents, updateUrgencyStats_incidents,
      updateSeverityStats_incidents] at hi'
    exact hinc i hi'
  · exact resolve_urgency_label_ne_critical m

theorem processFrame_max_label (x : Bool) (st : LoopState) (fd : FrameData)
    (m : EmergencyMetrics) :
    (processFrame x st fd m).max_urgency_label = st.max_urgency_label ∨
    (processFrame x st fd m).max_urgency_label = resolve_urgency_label m := by
  unfold processFrame
  dsimp only
  simp only [incidentPhase_max_label, appendDispatch_max_label]
  rcases updateUrgencyStats_max_label
      (updateSeverityStats st m (calculate_emergency_severity m))
      (resolve_urgency_label m) with h1 | h1
  · left
    rw [h1, updateSeverityStats_max_label]
  · right
    exact h1

theorem processFrame_inv (x : Bool) (st : LoopState) (fd : FrameData)
    (m : EmergencyMetrics) (h : LoopInv st) : LoopInv (processFrame x st fd m) := by
  obtain ⟨he, hi, ht, hm⟩ := h
  refine ⟨processFrame_events_good x st fd m he,
    processFrame_incidents_good x st fd m hi, ?_, ?_⟩
  · rw [processFrame_timeline]
    intro p hp
    rcases List.mem_append.mp hp with h1 | h1
    · exact ht p h1
    · simp only [List.mem_singleton] at h1
      subst h1
      exact resolve_urgency_label_ne_critical m
  · rcases processFrame_max_label x st fd m with h1 | h1
    · rw [h1]; exact hm
    · rw [h1]; exact resolve_urgency_label_mem m

theorem processFrame_candidates (x : Bool) (st : LoopState) (fd : FrameData)
    (m : EmergencyMetrics) :
    (processFrame x st fd m).dispatch_candidates =
      st.dispatch_candidates ++
        (if requires_agent_dispatch m (calculate_emergency_severity m)
         then [(m, calculate_emergency_severity m)] else []) := by
  unfold processFrame
  dsimp only
  simp only [incidentPhase_candidates, appendDispatch_candidates,
    updateUrgencyStats_candidates, updateSeverityStats_candidates]

theorem processFrame_disabled (st : LoopState) (fd : FrameData)
    (m : EmergencyMetrics) (hx : st.xai_analysis = none) :
    (processFrame false st fd m).xai_analysis = none ∧
    (processFrame false st fd m).events.countP isXaiDisabledEv =
      st.events.countP isXaiDisabledEv + (if xaiQualifies m then 1 else 0) := by
  constructor
  · show (processFrame false st fd m).xai_analysis = none
    unfold processFrame
    dsimp only
    rw [incidentPhase_xai_false]
    simpa using hx
  · unfold processFrame
    dsimp only
    rw [incidentPhase_disabled_count]
    simp only [appendDispatch_events, updateUrgencyStats_events,
      updateSeverityStats_events, appendDispatch_xai, updateUrgencyStats_xai,
      updateSeverityStats_xai, hx, List.countP_append, List.countP_cons]
    unfold xaiQualifies
    dsimp only
    simp [isXaiDisabledEv, Option.isNone]

theorem LoopInv_init (l : List (Except String XaiResult)) :
    LoopInv { xaiOutcomes := l } := by
  refine ⟨?_, ?_, ?_, ?_⟩ <;> simp

theorem runFrames_inv (x : Bool) (fs : List FrameStep) :
    ∀ st, LoopInv st → LoopInv (runFrames x st fs).1 := by
  induction fs with
  | nil => intro st h; exact h
  | cons step rest ih =>
    intro st h
    rw [runFrames.eq_def]
    dsimp only
    cases step with
    | skip => exact ih _ h
    | crash msg => exact h
    | ok fd m => exact ih _ (processFrame_inv x _ fd m h)

theorem runFrames_candidates (x : Bool) (fs : List FrameStep) :
    ∀ st, (runFrames x st fs).1.dispatch_candidates =
      st.dispatch_candidates ++ dispatchPairs (okMetricsBefore fs) := by
  induction fs with
  | nil => intro st; simp [runFrames, okMetricsBefore, dispatchPairs]
  | cons step rest ih =>
    intro st
    rw [runFrames.eq_def]
    dsimp only
    cases step with
    | skip =>
      rw [ih]
      rfl
    | crash msg =>
      show st.dispatch_candidates = st.dispatch_candidates ++ dispatchPairs []
      simp [dispatchPairs]
    | ok fd m =>
      rw [ih, processFrame_candidates]
      show st.dispatch_candidates ++ _ ++ _ =
        st.dispatch_candidates ++ dispatchPairs (m :: okMetricsBefore rest)
      rw [dispatchPairs_cons, List.append_assoc]

theorem runFrames_disabled (fs : List FrameStep) :
    ∀ st, st.xai_analysis = none →
      (runFrames false st fs).1.xai_analysis = none ∧
      (runFrames false st fs).1.events.countP isXaiDisabledEv =
        st.events.countP isXaiDisabledEv +
          (okMetricsBefore fs).countP xaiQualifies := by
  induction fs with
  | nil => intro st hx; exact ⟨hx, by simp [runFrames, okMetricsBefore]⟩
  | cons step rest ih =>
    intro st hx
    rw [runFrames.eq_def]
    dsimp only
    cases step with
    | skip =>
      dsimp only
      obtain ⟨h1, h2⟩ := ih { st with frame_count := st.frame_count + 1 } hx
      exact ⟨h1, by rw [h2]; rfl⟩
    | crash msg =>
      dsimp only
      exact ⟨hx, by simp [okMetricsBefore]⟩
    | ok fd m =>
      dsimp only
      obtain ⟨hp1, hp2⟩ := processFrame_disabled
        { st with frame_count := st.frame_count + 1 } fd m hx
      obtain ⟨h1, h2⟩ := ih
        (processFrame false { st with frame_count := st.frame_count + 1 } fd m) hp1
      refine ⟨h1, ?_⟩
      rw [h2, hp2]
      show st.events.countP isXaiDisabledEv + _ + _ = _
      rw [okMetricsBefore, List.countP_cons]
      omega

theorem mem_four_ne_critical (l : String)
    (h : l ∈ ["low", "normal", "medium", "high"]) : l ≠ "critical" := by
  simp only [List.mem_cons, List.not_mem_nil, or_false] at h
  rcases h with rfl | rfl | rfl | rfl <;> decide

theorem agentEventsOf_spec
    (d : Option (AgentEvent × List ToolCall × List IncidentEntry)) :
    ∀ e ∈ agentEventsOf d,
      isTerminalEv e = false ∧ e ≠ SessionEvent.endEv ∧
      criticalFree e = true ∧ isXaiDisabledEv e = false ∧
      ∀ r, e ≠ SessionEvent.completeEv r := by
  intro e he
  rcases d with _ | ⟨aev, calls, incs⟩
  · simp [agentEventsOf] at he
  · simp only [agentEventsOf] at he
    rcases List.mem_cons.mp he with rfl | he
    · exact ⟨rfl, fun h => SessionEvent.noConfusion h, rfl, rfl,
        fun r h => SessionEvent.noConfusion h⟩
    · obtain ⟨tc, _, rfl⟩ := List.mem_map.mp he
      exact ⟨rfl, fun h => SessionEvent.noConfusion h, rfl, rfl,
        fun r h => SessionEvent.noConfusion h⟩

theorem incidentsOf_urgency (st : LoopState) (ao : Option AgentResult)
    (hi : ∀ i ∈ st.critical_incidents, i.urgency_level ≠ "critical") :
    ∀ i ∈ incidentsOf st (selectAgentData st ao),
      i.urgency_level ≠ "critical" := by
  unfold selectAgentData
  rcases hsel : selectDispatch st with _ | sel <;> rcases ao with _ | res <;>
    dsimp only [incidentsOf]
  · exact hi
  · exact hi
  · exact hi
  · intro i hmem
    obtain ⟨j, hj, hju⟩ := applyAgentToIncidents_urgency _ _ _ _ i hmem
    rw [hju]
    exact hi j hj

theorem completeFlagOkEv_of_not_complete (b : Bool) (e : SessionEvent)
    (h : ∀ r, e ≠ SessionEvent.completeEv r) :
    completeFlagOkEv b e = true := by
  cases e <;> first | rfl | exact absurd rfl (h _)

theorem goodLoopEvent_ne_complete (e : SessionEvent)
    (h : goodLoopEvent e = true) : ∀ r, e ≠ SessionEvent.completeEv r := by
  intro r hr
  subst hr
  exact Bool.noConfusion h

theorem dispatchPairs_isEmpty (ms : List EmergencyMetrics) :
    (dispatchPairs ms).isEmpty =
      !(ms.any (fun m => requires_agent_dispatch m (calculate_emergency_severity m))) := by
  induction ms with
  | nil => rfl
  | cons m rest ih =>
    rw [dispatchPairs_cons, List.any_cons]
    by_cases h : requires_agent_dispatch m (calculate_emergency_severity m)
    · simp [h]
    · simp [h, ih]

/-! ## Claim C4 -/

/-- C4: no published frame, incident, or complete event carries the
urgency label critical, including all label fields inside the final
report. -/
theorem C4_no_critical_leakage (cfg : SessionConfig) :
    (publishedEvents cfg).all criticalFree = true := by
  unfold publishedEvents process_video_session
  cases cfg.openOk with
  | false => rfl
  | true =>
    rw [if_neg (show ¬ ((!true) = true) by decide)]
    have hinv := runFrames_inv cfg.xaiEnabled cfg.frames _
      (LoopInv_init cfg.xaiOutcomes)
    rcases hrun : runFrames cfg.xaiEnabled { xaiOutcomes := cfg.xaiOutcomes }
      cfg.frames with ⟨st, msg⟩
    rw [hrun] at hinv
    obtain ⟨he, hi, ht, hm⟩ := hinv
    cases msg with
    | some msgv =>
      dsimp only
      rw [filterMap_publish, List.all_append, Bool.and_eq_true]
      constructor
      · rw [List.all_eq_true]
        intro e he'
        exact goodLoopEvent_criticalFree e (he e he')
      · rfl
    | none =>
      dsimp only
      rw [filterMap_publish, List.all_append, List.all_append,
        Bool.and_eq_true, Bool.and_eq_true]
      refine ⟨⟨?_, ?_⟩, ?_⟩
      · rw [List.all_eq_true]
        intro e he'
        exact goodLoopEvent_criticalFree e (he e he')
      · rw [List.all_eq_true]
        intro e he'
        exact (agentEventsOf_spec _ e he').2.2.1
      · show (criticalFree (SessionEvent.completeEv _) &&
          (criticalFree SessionEvent.endEv && true)) = true
        rw [Bool.and_eq_true, Bool.and_eq_true]
        refine ⟨?_, rfl, rfl⟩
        show (_ && _ && _ && _) = true
        rw [Bool.and_eq_true, Bool.and_eq_true, Bool.and_eq_true]
        refine ⟨⟨⟨?_, ?_⟩, ?_⟩, ?_⟩
        · rw [bne_iff_ne]
          exact mem_four_ne_critical _ hm
        · rw [bne_iff_ne]
          exact mem_four_ne_critical _ (dominant_label_mem st)
        · rw [List.all_eq_true]
          intro i hi'
          rw [bne_iff_ne]
          exact incidentsOf_urgency st cfg.agentOutcome hi i hi'
        · rw [List.all_eq_true]
          intro p hp'
          rw [bne_iff_ne]
          exact ht p hp'

set_option maxRecDepth 8192 in
/-- C4 witness: the terminal end event of the benign session is
critical-free. -/
theorem C4_witness : criticalFree SessionEvent.endEv = true := by
  have h := C4_no_critical_leakage cfgBenign
  rw [List.all_eq_true] at h
  exact h SessionEvent.endEv (by decide)

/-! ## Claim C5 -/

/-- C5: every session trace publishes exactly one terminal event
(complete or error), then end as its very last event, and the registry
cleanup happens only after end has been enqueued. -/
theorem C5_terminal_discipline (cfg : SessionConfig) :
    ∃ evs t,
      process_video_session cfg =
        (evs ++ [t, SessionEvent.endEv]).map SessionAction.publish ++
          [SessionAction.cleanup] ∧
      isTerminalEv t = true ∧
      ∀ e ∈ evs, isTerminalEv e = false ∧ e ≠ SessionEvent.endEv := by
  unfold process_video_session
  cases cfg.openOk with
  | false =>
    refine ⟨[], SessionEvent.errorEv "Could not open video file", rfl, rfl, ?_⟩
    intro e he
    simp at he
  | true =>
    rw [if_neg (show ¬ ((!true) = true) by decide)]
    have hinv := runFrames_inv cfg.xaiEnabled cfg.frames _
      (LoopInv_init cfg.xaiOutcomes)
    rcases hrun : runFrames cfg.xaiEnabled { xaiOutcomes := cfg.xaiOutcomes }
      cfg.frames with ⟨st, msg⟩
    rw [hrun] at hinv
    obtain ⟨he, _, _, _⟩ := hinv
    cases msg with
    | some msgv =>
      refine ⟨st.events, SessionEvent.errorEv msgv, rfl, rfl, ?_⟩
      intro e he'
      exact goodLoopEvent_not_terminal e (he e he')
    | none =>
      refine ⟨st.events ++ agentEventsOf (selectAgentData st cfg.agentOutcome),
        SessionEvent.completeEv
          (buildReport cfg st (selectAgentData st cfg.agentOutcome)), ?_, rfl, ?_⟩
      · dsimp only
      · intro e he'
        rcases List.mem_append.mp he' with h1 | h1
        · exact goodLoopEvent_not_terminal e (he e h1)
        · have h := agentEventsOf_spec _ e h1
          exact ⟨h.1, h.2.1⟩

/-- C5 witness: the smoke session's trace has the required shape. -/
theorem C5_witness :
    ∃ evs t,
      process_video_session cfgSmoke =
        (evs ++ [t, SessionEvent.endEv]).map SessionAction.publish ++
          [SessionAction.cleanup] ∧
      isTerminalEv t = true ∧
      ∀ e ∈ evs, isTerminalEv e = false ∧ e ≠ SessionEvent.endEv :=
  C5_terminal_discipline cfgSmoke

/-! ## Claim C6 -/

/-- C6 (counterexample): with XAI disabled, the two-frame smoke session
publishes the xai_disabled event twice: nothing records that it was
already sent, so it is re-published on the second qualifying frame. -/
theorem C6_counterexample :
    (publishedEvents cfgSmoke2).countP isXaiDisabledEv = 2 ∧
    ¬ (publishedEvents cfgSmoke2).countP isXaiDisabledEv ≤ 1 := by
  decide

/-- C6 (amended): with XAI disabled, xai_disabled is published once per
qualifying analyzed frame (the stored analysis never becomes non-null,
so the trigger re-fires), not once per session. -/
theorem C6_xai_disabled_count (cfg : SessionConfig)
    (hx : cfg.xaiEnabled = false) (hO : cfg.openOk = true) :
    (publishedEvents cfg).countP isXaiDisabledEv =
      (okMetricsBefore cfg.frames).countP xaiQualifies := by
  unfold publishedEvents process_video_session
  rw [hO, hx]
  rw [if_neg (show ¬ ((!true) = true) by decide)]
  obtain ⟨hnone, hcount⟩ := runFrames_disabled cfg.frames
    { xaiOutcomes := cfg.xaiOutcomes } rfl
  rcases hrun : runFrames false { xaiOutcomes := cfg.xaiOutcomes }
    cfg.frames with ⟨st, msg⟩
  rw [hrun] at hcount
  have hinit : ({ xaiOutcomes := cfg.xaiOutcomes } : LoopState).events.countP
      isXaiDisabledEv = 0 := rfl
  rw [hinit] at hcount
  cases msg with
  | some msgv =>
    dsimp only
    rw [filterMap_publish, List.countP_append]
    have h2 : ([SessionEvent.errorEv msgv,
        SessionEvent.endEv] : List SessionEvent).countP isXaiDisabledEv = 0 := rfl
    rw [h2]
    dsimp only at hcount
    omega
  | none =>
    dsimp only
    rw [filterMap_publish, List.countP_append, List.countP_append]
    have h2 : ([SessionEvent.completeEv
        (buildReport cfg st (selectAgentData st cfg.agentOutcome)),
        SessionEvent.endEv] : List SessionEvent).countP isXaiDisabledEv = 0 := rfl
    have h3 : (agentEventsOf (selectAgentData st cfg.agentOutcome)).countP
        isXaiDisabledEv = 0 := by
      rw [List.countP_eq_zero]
      intro e he
      have := (agentEventsOf_spec _ e he).2.2.2.1
      simp [this]
    rw [h2, h3]
    dsimp only at hcount
    omega

/-- C6 witness: the two-frame smoke session with XAI disabled. -/
theorem C6_witness :
    (publishedEvents cfgSmoke2).countP isXaiDisabledEv =
      (okMetricsBefore cfgSmoke2.frames).countP xaiQualifies :=
  C6_xai_disabled_count cfgSmoke2 rfl rfl

/-! ## Claim C10 -/

/-- C10: in every complete report, requires_immediate_response is true
iff some successfully analyzed frame satisfied the dispatch policy; in
particular the smoke session reaches the agent only through the
best-frame fallback, publishes agent_call, and still reports
requires_immediate_response false. -/
theorem C10_requires_immediate_response :
    (∀ cfg : SessionConfig, reportFlagOk cfg = true) ∧
    (publishedEvents cfgSmoke).any isAgentCallEv = true ∧
    (publishedEvents cfgSmoke).all
      (fun e => match e with
        | SessionEvent.completeEv r => !r.analysis_summary.requires_immediate_response
        | _ => true) = true := by
  refine ⟨?_, by decide, by decide⟩
  intro cfg
  unfold reportFlagOk publishedEvents process_video_session
  cases cfg.openOk with
  | false => rfl
  | true =>
    rw [if_neg (show ¬ ((!true) = true) by decide)]
    have hinv := runFrames_inv cfg.xaiEnabled cfg.frames _
      (LoopInv_init cfg.xaiOutcomes)
    have hcand := runFrames_candidates cfg.xaiEnabled cfg.frames
      { xaiOutcomes := cfg.xaiOutcomes }
    rcases hrun : runFrames cfg.xaiEnabled { xaiOutcomes := cfg.xaiOutcomes }
      cfg.frames with ⟨st, msg⟩
    rw [hrun] at hinv hcand
    obtain ⟨he, _, _, _⟩ := hinv
    have hcand' : st.dispatch_candidates = dispatchPairs (okMetricsBefore cfg.frames) := by
      dsimp only at hcand
      simpa using hcand
    cases msg with
    | some msgv =>
      dsimp only
      rw [filterMap_publish, List.all_append, Bool.and_eq_true]
      constructor
      · rw [List.all_eq_true]
        intro e he'
        exact completeFlagOkEv_of_not_complete _ e
          (goodLoopEvent_ne_complete e (he e he'))
      · rfl
    | none =>
      dsimp only
      rw [filterMap_publish, List.all_append, List.all_append,
        Bool.and_eq_true, Bool.and_eq_true]
      refine ⟨⟨?_, ?_⟩, ?_⟩
      · rw [List.all_eq_true]
        intro e he'
        exact completeFlagOkEv_of_not_complete _ e
          (goodLoopEvent_ne_complete e (he e he'))
      · rw [List.all_eq_true]
        intro e he'
        exact completeFlagOkEv_of_not_complete _ e (agentEventsOf_spec _ e he').2.2.2.2
      · show (completeFlagOkEv _ (SessionEvent.completeEv _) &&
          (completeFlagOkEv _ SessionEvent.endEv && true)) = true
        rw [Bool.and_eq_true]
        refine ⟨?_, rfl⟩
        show ((!st.dispatch_candidates.isEmpty) == _) = true
        rw [hcand', dispatchPairs_isEmpty, Bool.not_not]
        exact beq_self_eq_true _

end EmergencyApp
